import Mathlib

set_option maxHeartbeats 1000000

/-!
Verification development for the udonarium-to-FVTT character-sheet converter
(src/udonarium_fvtt_converter.py).  The converter reads an XML tree of nested
named "data" nodes and produces a fixed JSON record (abilities, hit points,
hit dice, alignment, race, spell slots, traits, items, biography).

The XML tree is embedded as a mutually inductive element type (an element and
a list of child elements), so that every traversal below is structurally
recursive and evaluates by kernel reduction.  The lxml parser itself is a
third-party library outside this repository; its outcome is modelled as an
Except value fed to the converter, matching the try/except structure of
xml_to_fvtt_json.
-/

mutual
/-- Model of an lxml element: tag, attributes, text content (None or a
string), and children.  Children are a separate inductive so that all
recursion over the tree is structural. -/
inductive Element where
  | mk (tag : String) (attrs : List (String × String)) (text : Option String)
      (children : ElementList)

/-- List of child elements (isomorphic to List Element). -/
inductive ElementList where
  | nil
  | cons (head : Element) (tail : ElementList)
end

def ElementList.toList : ElementList → List Element
  | .nil => []
  | .cons h t => h :: t.toList

def ElementList.ofList : List Element → ElementList
  | [] => .nil
  | h :: t => .cons h (ElementList.ofList t)

/-- Convenience constructor taking children as an ordinary list. -/
def el (tag : String) (attrs : List (String × String)) (text : Option String)
    (children : List Element) : Element :=
  Element.mk tag attrs text (ElementList.ofList children)

def Element.tag : Element → String
  | .mk t _ _ _ => t

def Element.attrs : Element → List (String × String)
  | .mk _ a _ _ => a

def Element.text : Element → Option String
  | .mk _ _ x _ => x

def Element.children : Element → List Element
  | .mk _ _ _ c => c.toList

/-- Model of lxml elem.get(k): the value of attribute k, if present. -/
def Element.get (e : Element) (k : String) : Option String :=
  e.attrs.lookup k

mutual
/-- All proper descendants of an element, in document (preorder) order.
Models the ElementTree path step ".//" . -/
def elemDesc : Element → List Element
  | .mk _ _ _ ch => listDesc ch

def listDesc : ElementList → List Element
  | .nil => []
  | .cons e rest => e :: (elemDesc e ++ listDesc rest)
end

/-- Model of Python str.strip(): drop whitespace from both ends. -/
def pyStrip (s : String) : String :=
  ⟨((s.data.dropWhile Char.isWhitespace).reverse.dropWhile Char.isWhitespace).reverse⟩

/-- Does pat occur as an initial segment of the second list? -/
def matchesAt : List Char → List Char → Bool
  | [], _ => true
  | _ :: _, [] => false
  | p :: ps, c :: cs => p == c && matchesAt ps cs

/-- Fuel-indexed worker for pyReplace; the fuel (the length of the input
list suffices) only makes the recursion structural.  For a nonempty pattern
this follows Python str.replace: at each position, if the pattern matches,
emit the replacement and skip the pattern, otherwise keep the character. -/
def replaceAuxF (pat rep : List Char) : Nat → List Char → List Char
  | _, [] => []
  | 0, l => l
  | Nat.succ f, c :: cs =>
    if pat ≠ [] ∧ matchesAt pat (c :: cs) then
      rep ++ replaceAuxF pat rep f (List.drop (pat.length - 1) cs)
    else
      c :: replaceAuxF pat rep f cs

/-- Model of Python s.replace(pat, rep) for a nonempty pattern (the converter
only replaces the bracket characters 【 and 】). -/
def pyReplace (s pat rep : String) : String :=
  ⟨replaceAuxF pat.data rep.data s.data.length s.data⟩

/-- Model of Python int() on integer-looking strings: an optional sign
followed by ASCII digits.  Absence of a valid numeral is Python's
ValueError, modelled as none. -/
def digitsToNat (cs : List Char) : Nat :=
  cs.foldl (fun n c => n * 10 + (c.toNat - 48)) 0

def pyIntOpt (s : String) : Option Int :=
  match s.data with
  | [] => none
  | '+' :: cs =>
    if cs ≠ [] ∧ cs.all Char.isDigit then some (Int.ofNat (digitsToNat cs)) else none
  | '-' :: cs =>
    if cs ≠ [] ∧ cs.all Char.isDigit then some (-(Int.ofNat (digitsToNat cs))) else none
  | cs =>
    if cs.all Char.isDigit then some (Int.ofNat (digitsToNat cs)) else none

/-- Source lines 12-14: get_text(elem) returns elem.text.strip() when the
element exists and has truthy (non-None, nonempty) text, else "". -/
def get_text (elem : Option Element) : String :=
  match elem with
  | none => ""
  | some e =>
    match e.text with
    | none => ""
    | some t => if t = "" then "" else pyStrip t

/-- Source lines 16-24: get_int_value(elem, attrib_name) reads the named
attribute (or the text content when attrib_name is the sentinel "text"),
strips it and parses it as an int; a missing element, a missing or empty
value, or a parse failure all give 0. -/
def get_int_value (elem : Option Element) (attrib_name : String) : Int :=
  match elem with
  | none => 0
  | some e =>
    let value := if attrib_name ≠ "text" then e.get attrib_name else e.text
    match value with
    | none => 0
    | some v =>
      if v = "" then 0
      else
        match pyIntOpt (pyStrip v) with
        | some n => n
        | none => 0

/-- Destination record, mirroring the json_data dictionary built at source
lines 75-85.  Trait keys (ideal, trait, bond, flaw) are absent from the
initial dictionary and only added by parse_traits, hence Option String. -/
structure AbilityScore where
  value : Int
deriving DecidableEq

structure Abilities where
  str : AbilityScore
  dex : AbilityScore
  con : AbilityScore
  int : AbilityScore
  wis : AbilityScore
  cha : AbilityScore
deriving DecidableEq

structure HP where
  value : Int
  max : Int
deriving DecidableEq

structure HD where
  value : String
deriving DecidableEq

structure AttributesRec where
  hp : HP
  hd : HD
deriving DecidableEq

structure Biography where
  value : String
deriving DecidableEq

structure Details where
  alignment : String
  race : String
  biography : Biography
  ideal : Option String
  trait : Option String
  bond : Option String
  flaw : Option String
deriving DecidableEq

structure SpellSlot where
  value : Int
  max : Int
deriving DecidableEq

structure Spells where
  spell1 : SpellSlot
  spell2 : SpellSlot
  spell3 : SpellSlot
  spell4 : SpellSlot
  spell5 : SpellSlot
  spell6 : SpellSlot
  spell7 : SpellSlot
  spell8 : SpellSlot
  spell9 : SpellSlot
deriving DecidableEq

structure DescriptionVal where
  value : String
deriving DecidableEq

structure ItemSystem where
  description : DescriptionVal
deriving DecidableEq

structure ItemRec where
  name : Option String
  type : String
  system : ItemSystem
deriving DecidableEq

structure SystemData where
  abilities : Abilities
  attributes : AttributesRec
  details : Details
  spells : Spells
deriving DecidableEq

structure JsonData where
  name : String
  type : String
  system : SystemData
  items : List ItemRec
deriving DecidableEq

/-- Initial json_data of source lines 75-85: every fixed key present with its
zero or empty default. -/
def initJson : JsonData :=
  { name := ""
    type := "character"
    system :=
      { abilities := ⟨⟨0⟩, ⟨0⟩, ⟨0⟩, ⟨0⟩, ⟨0⟩, ⟨0⟩⟩
        attributes := ⟨⟨0, 0⟩, ⟨""⟩⟩
        details := ⟨"", "", ⟨""⟩, none, none, none, none⟩
        spells := ⟨⟨0, 0⟩, ⟨0, 0⟩, ⟨0, 0⟩, ⟨0, 0⟩, ⟨0, 0⟩, ⟨0, 0⟩, ⟨0, 0⟩, ⟨0, 0⟩, ⟨0, 0⟩⟩ }
    items := [] }

/-- Does this element match the ElementTree step data[@name='nm']? -/
def isDataNamed (nm : String) (e : Element) : Bool :=
  e.tag == "data" && e.get "name" == some nm

/-- Model of root.findall(".//data[@name='nm']"): matching descendants in
document order. -/
def findallDescNamed (root : Element) (nm : String) : List Element :=
  (elemDesc root).filter (isDataNamed nm)

/-- Model of root.find(".//data[@name='nm']"): the first match, if any. -/
def findDescNamed (root : Element) (nm : String) : Option Element :=
  (findallDescNamed root nm).head?

/-- Model of root.findall(".//data[@name='nm']/data"): the data children of
every matching container. -/
def findallDescChildData (root : Element) (nm : String) : List Element :=
  (findallDescNamed root nm).flatMap fun e => e.children.filter fun c => c.tag == "data"

/-- Model of root.find(".//data[@name='nm']/data[@name='cn']"). -/
def findDescChildNamed (root : Element) (nm cn : String) : Option Element :=
  ((findallDescNamed root nm).flatMap fun e => e.children.filter (isDataNamed cn)).head?

/-- Source lines 28-35: the fixed Japanese-label-to-identifier table for the
six abilities. -/
def ability_mapping : List (String × String) :=
  [("筋力", "str"), ("敏捷力", "dex"), ("耐久力", "con"),
   ("知力", "int"), ("判断力", "wis"), ("魅力", "cha")]

/-- Source line 37: strip the bracket decoration 【】 from an ability label. -/
def normalizeAbilityName (s : String) : String :=
  pyReplace (pyReplace s "【" "") "】" ""

/-- The canonical ability identifier an ability element is mapped to, if its
stripped label is in the table (source lines 37-38). -/
def abilityKey (e : Element) : Option String :=
  ability_mapping.lookup (normalizeAbilityName ((e.get "name").getD ""))

/-- Dictionary write json_data["system"]["abilities"][k]["value"] = v.  Only
the six canonical keys ever reach this point in the source. -/
def setAbilityValue (js : JsonData) (k : String) (v : Int) : JsonData :=
  if k = "str" then { js with system.abilities.str.value := v }
  else if k = "dex" then { js with system.abilities.dex.value := v }
  else if k = "con" then { js with system.abilities.con.value := v }
  else if k = "int" then { js with system.abilities.int.value := v }
  else if k = "wis" then { js with system.abilities.wis.value := v }
  else if k = "cha" then { js with system.abilities.cha.value := v }
  else js

/-- Loop body of parse_abilities (source lines 36-40). -/
def applyAbility (js : JsonData) (ability_elem : Element) : JsonData :=
  match abilityKey ability_elem with
  | some ability_name_en => setAbilityValue js ability_name_en (get_int_value (some ability_elem) "text")
  | none => js

/-- Source lines 26-40: map the data children of every 能力値 container. -/
def parse_abilities (root : Element) (json_data : JsonData) : JsonData :=
  (findallDescChildData root "能力値").foldl applyAbility json_data

/-- Source lines 44-49: the fixed trait table. -/
def traits_mapping : List (String × String) :=
  [("尊ぶもの", "ideal"), ("人格的特徴", "trait"), ("関わり深いもの", "bond"), ("弱味", "flaw")]

/-- Dictionary write json_data["system"]["details"][k] = v for a trait key. -/
def setTrait (js : JsonData) (k : String) (v : String) : JsonData :=
  if k = "ideal" then { js with system.details.ideal := some v }
  else if k = "trait" then { js with system.details.trait := some v }
  else if k = "bond" then { js with system.details.bond := some v }
  else if k = "flaw" then { js with system.details.flaw := some v }
  else js

/-- Loop body of parse_traits (source lines 52-56). -/
def applyTrait (js : JsonData) (trait_elem : Element) : JsonData :=
  match trait_elem.get "name" with
  | none => js
  | some xml_name =>
    match traits_mapping.lookup xml_name with
    | some json_name => setTrait js json_name (get_text (some trait_elem))
    | none => js

/-- Source lines 42-56: map the data children of the first 特徴等 container. -/
def parse_traits (root : Element) (json_data : JsonData) : JsonData :=
  match findDescNamed root "特徴等" with
  | none => json_data
  | some traits_elem =>
    (traits_elem.children.filter fun c => c.tag == "data").foldl applyTrait json_data

/-- The item record appended for one inventory child (source lines 63-68). -/
def mkItem (item_elem : Element) : ItemRec :=
  { name := item_elem.get "name"
    type := "item"
    system := ⟨⟨get_text (some item_elem)⟩⟩ }

/-- The json_data["items"].append(...) call of source lines 64-68. -/
def appendItem (js : JsonData) (item_elem : Element) : JsonData :=
  { js with items := js.items ++ [mkItem item_elem] }

/-- Source lines 58-68: append one record per data child of the first
アイテム container. -/
def parse_items (root : Element) (json_data : JsonData) : JsonData :=
  match findDescNamed root "アイテム" with
  | none => json_data
  | some items_elem =>
    (items_elem.children.filter fun c => c.tag == "data").foldl appendItem json_data

/-- Source lines 118-122: node names already handled elsewhere, skipped when
harvesting leftovers into the biography. -/
def skip_names : List String :=
  ["基本", "能力値", "行動データ", "技能", "セーヴィングスロー",
   "特徴等", "imageIdentifier", "ヒット・ダイス", "ヒット・ポイント",
   "属性", "種族", "アイテム"]

/-- One pass of the loop at source lines 126-130: the biography line
contributed by a descendant of the detail node, if any. -/
def unconvertedLine (data_elem : Element) : Option String :=
  match data_elem.get "name" with
  | none => none
  | some nm =>
    if nm = "" ∨ nm ∈ skip_names then none
    else
      match data_elem.text with
      | none => none
      | some t => if t = "" then none else some (nm ++ ": " ++ pyStrip t)

/-- Source lines 123-130: the list of unconverted "name: text" lines, in
document order under the first data node named detail. -/
def unconvertedData (root : Element) : List String :=
  match findDescNamed root "detail" with
  | none => []
  | some detail_elem =>
    ((elemDesc detail_elem).filter fun e => e.tag == "data").filterMap unconvertedLine

/-- Step of source lines 88-89: character name. -/
def nameStep (root : Element) (json_data : JsonData) : JsonData :=
  { json_data with name := get_text (findDescChildNamed root "character" "name") }

/-- Step of source lines 93-96: hit points. -/
def hpStep (root : Element) (json_data : JsonData) : JsonData :=
  match findDescChildNamed root "行動データ" "ヒット・ポイント" with
  | none => json_data
  | some hp_elem =>
    { json_data with system.attributes.hp :=
        ⟨get_int_value (some hp_elem) "currentValue", get_int_value (some hp_elem) "text"⟩ }

/-- Step of source lines 98-99: hit dice. -/
def hdStep (root : Element) (json_data : JsonData) : JsonData :=
  { json_data with system.attributes.hd.value := get_text (findDescNamed root "ヒット・ダイス") }

/-- Step of source lines 101-102: alignment. -/
def alignmentStep (root : Element) (json_data : JsonData) : JsonData :=
  { json_data with system.details.alignment := get_text (findDescNamed root "属性") }

/-- Step of source lines 104-105: race. -/
def raceStep (root : Element) (json_data : JsonData) : JsonData :=
  { json_data with system.details.race := get_text (findDescNamed root "種族") }

/-- Dictionary writes to json_data["system"]["spells"]["spell" + level]. -/
def setSpellSlot (js : JsonData) (level : Nat) (slot : SpellSlot) : JsonData :=
  if level = 1 then { js with system.spells.spell1 := slot }
  else if level = 2 then { js with system.spells.spell2 := slot }
  else if level = 3 then { js with system.spells.spell3 := slot }
  else if level = 4 then { js with system.spells.spell4 := slot }
  else if level = 5 then { js with system.spells.spell5 := slot }
  else if level = 6 then { js with system.spells.spell6 := slot }
  else if level = 7 then { js with system.spells.spell7 := slot }
  else if level = 8 then { js with system.spells.spell8 := slot }
  else if level = 9 then { js with system.spells.spell9 := slot }
  else js

/-- Loop body of source lines 107-112: one spell level. -/
def applySpellLevel (root : Element) (json_data : JsonData) (level_num : Nat) : JsonData :=
  match findDescChildNamed root ("LV" ++ toString level_num) "スロット" with
  | none => json_data
  | some slot_elem =>
    setSpellSlot json_data level_num
      ⟨get_int_value (some slot_elem) "currentValue", get_int_value (some slot_elem) "text"⟩

/-- Source lines 107-112: the loop for level_num in range(1, 10). -/
def spellsStep (root : Element) (json_data : JsonData) : JsonData :=
  [1, 2, 3, 4, 5, 6, 7, 8, 9].foldl (applySpellLevel root) json_data

/-- Source lines 117-133: join the leftover lines into the biography when
there are any. -/
def biographyStep (root : Element) (json_data : JsonData) : JsonData :=
  if unconvertedData root = [] then json_data
  else
    { json_data with system.details.biography.value :=
        String.intercalate "\n" (unconvertedData root) }

/-- Body of xml_to_fvtt_json on a successfully parsed root (source lines
73-135), steps in source order. -/
def convertRoot (root : Element) : JsonData :=
  biographyStep root
    (parse_items root
      (parse_traits root
        (spellsStep root
          (raceStep root
            (alignmentStep root
              (hdStep root
                (hpStep root
                  (parse_abilities root
                    (nameStep root initJson)))))))))

/-- Model of the lxml XMLSyntaxError raised by etree.fromstring on input
that is not well-formed. -/
structure XMLSyntaxError where
  msg : String

/-- Source lines 70-142: the converter returns the built record on a parsed
root and None when parsing failed with a syntax error (the except clause at
lines 137-139).  Parsing itself happens in lxml, outside this repository, so
its outcome is the function's input. -/
def xml_to_fvtt_json (parsed : Except XMLSyntaxError Element) : Option JsonData :=
  match parsed with
  | Except.ok root => some (convertRoot root)
  | Except.error _ => none

/-! Concrete sample documents used to instantiate the theorems below. -/

/-- An ability node labelled 【筋力】 with text "15". -/
def abilityNode15 : Element := el "data" [("name", "【筋力】")] (some "15") []

/-- A node whose text "abc" is not a numeral. -/
def abcNode : Element := el "data" [("name", "x")] (some "abc") []

/-- A node with no text at all. -/
def noTextNode : Element := el "data" [("name", "x")] none []

/-- A node whose text is whitespace only. -/
def blankTextNode : Element := el "data" [("name", "x")] (some "   ") []

/-- A document with no data nodes at all. -/
def sampleEmptyRoot : Element := el "character" [] none []

/-- A document whose ability container holds the 【筋力】 node and a node
with an unrecognized label. -/
def sampleAbilityRoot : Element :=
  el "character" [] none
    [el "data" [("name", "能力値")] none
      [abilityNode15, el "data" [("name", "謎")] (some "5") []]]

/-- The same document with only the unrecognized node. -/
def sampleUnknownOnlyRoot : Element :=
  el "character" [] none
    [el "data" [("name", "能力値")] none
      [el "data" [("name", "謎")] (some "5") []]]

/-- The same document with an empty ability container. -/
def sampleNoAbilityRoot : Element :=
  el "character" [] none
    [el "data" [("name", "能力値")] none []]

/-- A document whose hit-point node has currentValue "7" and text "10". -/
def sampleHpRoot : Element :=
  el "character" [] none
    [el "data" [("name", "行動データ")] none
      [el "data" [("name", "ヒット・ポイント"), ("currentValue", "7")] (some "10") []]]

/-- A document whose inventory container has two named children. -/
def sampleItemsRoot : Element :=
  el "character" [] none
    [el "data" [("name", "アイテム")] none
      [el "data" [("name", "剣")] (some "鋭い剣") [],
       el "data" [("name", "盾")] (some "固い盾") []]]

/-- A document whose inventory container has one child without a name
attribute. -/
def sampleNamelessItemRoot : Element :=
  el "character" [] none
    [el "data" [("name", "アイテム")] none
      [el "data" [] (some "ポーション") []]]

/-- A node with a numeric currentValue attribute and numeric text. -/
def currentValueNode7 : Element := el "data" [("currentValue", "7")] (some "10") []

/-- A node whose currentValue attribute is not a numeral. -/
def currentValueNodeAbc : Element := el "data" [("currentValue", "abc")] none []

/-- A document whose ability container holds all six bracketed labels. -/
def sampleAllAbilitiesRoot : Element :=
  el "character" [] none
    [el "data" [("name", "能力値")] none
      [el "data" [("name", "【筋力】")] (some "15") [],
       el "data" [("name", "【敏捷力】")] (some "14") [],
       el "data" [("name", "【耐久力】")] (some "13") [],
       el "data" [("name", "【知力】")] (some "12") [],
       el "data" [("name", "【判断力】")] (some "11") [],
       el "data" [("name", "【魅力】")] (some "10") []]]

/-! Frame lemmas: each conversion step leaves every field it does not own
unchanged.  Fold-based steps get them by induction from their loop body. -/

theorem setAbilityValue_frame (js : JsonData) (k : String) (v : Int) :
    (setAbilityValue js k v).name = js.name ∧
    (setAbilityValue js k v).system.attributes = js.system.attributes ∧
    (setAbilityValue js k v).system.details = js.system.details ∧
    (setAbilityValue js k v).system.spells = js.system.spells ∧
    (setAbilityValue js k v).items = js.items := by
  unfold setAbilityValue
  split_ifs <;> exact ⟨rfl, rfl, rfl, rfl, rfl⟩

theorem applyAbility_frame (js : JsonData) (e : Element) :
    (applyAbility js e).name = js.name ∧
    (applyAbility js e).system.attributes = js.system.attributes ∧
    (applyAbility js e).system.details = js.system.details ∧
    (applyAbility js e).system.spells = js.system.spells ∧
    (applyAbility js e).items = js.items := by
  unfold applyAbility
  cases abilityKey e with
  | none => exact ⟨rfl, rfl, rfl, rfl, rfl⟩
  | some k => exact setAbilityValue_frame js k _

theorem foldAbility_frame (l : List Element) (js : JsonData) :
    (l.foldl applyAbility js).name = js.name ∧
    (l.foldl applyAbility js).system.attributes = js.system.attributes ∧
    (l.foldl applyAbility js).system.details = js.system.details ∧
    (l.foldl applyAbility js).system.spells = js.system.spells ∧
    (l.foldl applyAbility js).items = js.items := by
  induction l generalizing js with
  | nil => exact ⟨rfl, rfl, rfl, rfl, rfl⟩
  | cons e t ih =>
    simp only [List.foldl_cons]
    obtain ⟨i1, i2, i3, i4, i5⟩ := ih (applyAbility js e)
    obtain ⟨s1, s2, s3, s4, s5⟩ := applyAbility_frame js e
    exact ⟨i1.trans s1, i2.trans s2, i3.trans s3, i4.trans s4, i5.trans s5⟩

theorem parse_abilities_name (root : Element) (js : JsonData) :
    (parse_abilities root js).name = js.name := (foldAbility_frame _ _).1

theorem parse_abilities_attributes (root : Element) (js : JsonData) :
    (parse_abilities root js).system.attributes = js.system.attributes :=
  (foldAbility_frame _ _).2.1

theorem parse_abilities_details (root : Element) (js : JsonData) :
    (parse_abilities root js).system.details = js.system.details :=
  (foldAbility_frame _ _).2.2.1

theorem parse_abilities_spells (root : Element) (js : JsonData) :
    (parse_abilities root js).system.spells = js.system.spells :=
  (foldAbility_frame _ _).2.2.2.1

theorem parse_abilities_items (root : Element) (js : JsonData) :
    (parse_abilities root js).items = js.items := (foldAbility_frame _ _).2.2.2.2

theorem hpStep_frame (root : Element) (js : JsonData) :
    (hpStep root js).name = js.name ∧
    (hpStep root js).system.abilities = js.system.abilities ∧
    (hpStep root js).system.details = js.system.details ∧
    (hpStep root js).system.spells = js.system.spells ∧
    (hpStep root js).items = js.items := by
  unfold hpStep
  cases findDescChildNamed root "行動データ" "ヒット・ポイント" <;> exact ⟨rfl, rfl, rfl, rfl, rfl⟩

theorem hpStep_name (root : Element) (js : JsonData) :
    (hpStep root js).name = js.name := (hpStep_frame root js).1

theorem hpStep_abilities (root : Element) (js : JsonData) :
    (hpStep root js).system.abilities = js.system.abilities := (hpStep_frame root js).2.1

theorem hpStep_details (root : Element) (js : JsonData) :
    (hpStep root js).system.details = js.system.details := (hpStep_frame root js).2.2.1

theorem hpStep_spells (root : Element) (js : JsonData) :
    (hpStep root js).system.spells = js.system.spells := (hpStep_frame root js).2.2.2.1

theorem hpStep_items (root : Element) (js : JsonData) :
    (hpStep root js).items = js.items := (hpStep_frame root js).2.2.2.2

theorem hdStep_name (root : Element) (js : JsonData) :
    (hdStep root js).name = js.name := rfl

theorem hdStep_abilities (root : Element) (js : JsonData) :
    (hdStep root js).system.abilities = js.system.abilities := rfl

theorem hdStep_hp (root : Element) (js : JsonData) :
    (hdStep root js).system.attributes.hp = js.system.attributes.hp := rfl

theorem hdStep_details (root : Element) (js : JsonData) :
    (hdStep root js).system.details = js.system.details := rfl

theorem hdStep_spells (root : Element) (js : JsonData) :
    (hdStep root js).system.spells = js.system.spells := rfl

theorem hdStep_items (root : Element) (js : JsonData) :
    (hdStep root js).items = js.items := rfl

theorem alignmentStep_name (root : Element) (js : JsonData) :
    (alignmentStep root js).name = js.name := rfl

theorem alignmentStep_abilities (root : Element) (js : JsonData) :
    (alignmentStep root js).system.abilities = js.system.abilities := rfl

theorem alignmentStep_attributes (root : Element) (js : JsonData) :
    (alignmentStep root js).system.attributes = js.system.attributes := rfl

theorem alignmentStep_race (root : Element) (js : JsonData) :
    (alignmentStep root js).system.details.race = js.system.details.race := rfl

theorem alignmentStep_biography (root : Element) (js : JsonData) :
    (alignmentStep root js).system.details.biography = js.system.details.biography := rfl

theorem alignmentStep_spells (root : Element) (js : JsonData) :
    (alignmentStep root js).system.spells = js.system.spells := rfl

theorem alignmentStep_items (root : Element) (js : JsonData) :
    (alignmentStep root js).items = js.items := rfl

theorem raceStep_name (root : Element) (js : JsonData) :
    (raceStep root js).name = js.name := rfl

theorem raceStep_abilities (root : Element) (js : JsonData) :
    (raceStep root js).system.abilities = js.system.abilities := rfl

theorem raceStep_attributes (root : Element) (js : JsonData) :
    (raceStep root js).system.attributes = js.system.attributes := rfl

theorem raceStep_alignment (root : Element) (js : JsonData) :
    (raceStep root js).system.details.alignment = js.system.details.alignment := rfl

theorem raceStep_biography (root : Element) (js : JsonData) :
    (raceStep root js).system.details.biography = js.system.details.biography := rfl

theorem raceStep_spells (root : Element) (js : JsonData) :
    (raceStep root js).system.spells = js.system.spells := rfl

theorem raceStep_items (root : Element) (js : JsonData) :
    (raceStep root js).items = js.items := rfl

theorem setSpellSlot_frame (js : JsonData) (m : Nat) (slot : SpellSlot) :
    (setSpellSlot js m slot).name = js.name ∧
    (setSpellSlot js m slot).system.abilities = js.system.abilities ∧
    (setSpellSlot js m slot).system.attributes = js.system.attributes ∧
    (setSpellSlot js m slot).system.details = js.system.details ∧
    (setSpellSlot js m slot).items = js.items := by
  unfold setSpellSlot
  split_ifs <;> exact ⟨rfl, rfl, rfl, rfl, rfl⟩

theorem applySpellLevel_frame (root : Element) (js : JsonData) (m : Nat) :
    (applySpellLevel root js m).name = js.name ∧
    (applySpellLevel root js m).system.abilities = js.system.abilities ∧
    (applySpellLevel root js m).system.attributes = js.system.attributes ∧
    (applySpellLevel root js m).system.details = js.system.details ∧
    (applySpellLevel root js m).items = js.items := by
  unfold applySpellLevel
  cases findDescChildNamed root ("LV" ++ toString m) "スロット" with
  | none => exact ⟨rfl, rfl, rfl, rfl, rfl⟩
  | some slot_elem => exact setSpellSlot_frame js m _

theorem foldSpellLevel_frame (root : Element) (levels : List Nat) (js : JsonData) :
    ((levels.foldl (applySpellLevel root) js)).name = js.name ∧
    ((levels.foldl (applySpellLevel root) js)).system.abilities = js.system.abilities ∧
    ((levels.foldl (applySpellLevel root) js)).system.attributes = js.system.attributes ∧
    ((levels.foldl (applySpellLevel root) js)).system.details = js.system.details ∧
    ((levels.foldl (applySpellLevel root) js)).items = js.items := by
  induction levels generalizing js with
  | nil => exact ⟨rfl, rfl, rfl, rfl, rfl⟩
  | cons m t ih =>
    simp only [List.foldl_cons]
    obtain ⟨i1, i2, i3, i4, i5⟩ := ih (applySpellLevel root js m)
    obtain ⟨s1, s2, s3, s4, s5⟩ := applySpellLevel_frame root js m
    exact ⟨i1.trans s1, i2.trans s2, i3.trans s3, i4.trans s4, i5.trans s5⟩

theorem spellsStep_name (root : Element) (js : JsonData) :
    (spellsStep root js).name = js.name := (foldSpellLevel_frame root _ js).1

theorem spellsStep_abilities (root : Element) (js : JsonData) :
    (spellsStep root js).system.abilities = js.system.abilities :=
  (foldSpellLevel_frame root _ js).2.1

theorem spellsStep_attributes (root : Element) (js : JsonData) :
    (spellsStep root js).system.attributes = js.system.attributes :=
  (foldSpellLevel_frame root _ js).2.2.1

theorem spellsStep_details (root : Element) (js : JsonData) :
    (spellsStep root js).system.details = js.system.details :=
  (foldSpellLevel_frame root _ js).2.2.2.1

theorem spellsStep_items (root : Element) (js : JsonData) :
    (spellsStep root js).items = js.items := (foldSpellLevel_frame root _ js).2.2.2.2

theorem setTrait_frame (js : JsonData) (k v : String) :
    (setTrait js k v).name = js.name ∧
    (setTrait js k v).system.abilities = js.system.abilities ∧
    (setTrait js k v).system.attributes = js.system.attributes ∧
    (setTrait js k v).system.details.alignment = js.system.details.alignment ∧
    (setTrait js k v).system.details.race = js.system.details.race ∧
    (setTrait js k v).system.details.biography = js.system.details.biography ∧
    (setTrait js k v).system.spells = js.system.spells ∧
    (setTrait js k v).items = js.items := by
  unfold setTrait
  split_ifs <;> exact ⟨rfl, rfl, rfl, rfl, rfl, rfl, rfl, rfl⟩

theorem applyTraitInner_frame (js : JsonData) (v : String) (o : Option String) :
    ((match o with
      | some json_name => setTrait js json_name v
      | none => js) : JsonData).name = js.name ∧
    ((match o with
      | some json_name => setTrait js json_name v
      | none => js) : JsonData).system.abilities = js.system.abilities ∧
    ((match o with
      | some json_name => setTrait js json_name v
      | none => js) : JsonData).system.attributes = js.system.attributes ∧
    ((match o with
      | some json_name => setTrait js json_name v
      | none => js) : JsonData).system.details.alignment = js.system.details.alignment ∧
    ((match o with
      | some json_name => setTrait js json_name v
      | none => js) : JsonData).system.details.race = js.system.details.race ∧
    ((match o with
      | some json_name => setTrait js json_name v
      | none => js) : JsonData).system.details.biography = js.system.details.biography ∧
    ((match o with
      | some json_name => setTrait js json_name v
      | none => js) : JsonData).system.spells = js.system.spells ∧
    ((match o with
      | some json_name => setTrait js json_name v
      | none => js) : JsonData).items = js.items := by
  cases o with
  | none => exact ⟨rfl, rfl, rfl, rfl, rfl, rfl, rfl, rfl⟩
  | some json_name => exact setTrait_frame js json_name v

theorem applyTrait_frame (js : JsonData) (e : Element) :
    (applyTrait js e).name = js.name ∧
    (applyTrait js e).system.abilities = js.system.abilities ∧
    (applyTrait js e).system.attributes = js.system.attributes ∧
    (applyTrait js e).system.details.alignment = js.system.details.alignment ∧
    (applyTrait js e).system.details.race = js.system.details.race ∧
    (applyTrait js e).system.details.biography = js.system.details.biography ∧
    (applyTrait js e).system.spells = js.system.spells ∧
    (applyTrait js e).items = js.items := by
  unfold applyTrait
  cases e.get "name" with
  | none => exact ⟨rfl, rfl, rfl, rfl, rfl, rfl, rfl, rfl⟩
  | some xml_name =>
    exact applyTraitInner_frame js (get_text (some e)) (traits_mapping.lookup xml_name)

theorem foldTrait_frame (l : List Element) (js : JsonData) :
    ((l.foldl applyTrait js)).name = js.name ∧
    ((l.foldl applyTrait js)).system.abilities = js.system.abilities ∧
    ((l.foldl applyTrait js)).system.attributes = js.system.attributes ∧
    ((l.foldl applyTrait js)).system.details.alignment = js.system.details.alignment ∧
    ((l.foldl applyTrait js)).system.details.race = js.system.details.race ∧
    ((l.foldl applyTrait js)).system.details.biography = js.system.details.biography ∧
    ((l.foldl applyTrait js)).system.spells = js.system.spells ∧
    ((l.foldl applyTrait js)).items = js.items := by
  induction l generalizing js with
  | nil => exact ⟨rfl, rfl, rfl, rfl, rfl, rfl, rfl, rfl⟩
  | cons e t ih =>
    simp only [List.foldl_cons]
    obtain ⟨i1, i2, i3, i4, i5, i6, i7, i8⟩ := ih (applyTrait js e)
    obtain ⟨s1, s2, s3, s4, s5, s6, s7, s8⟩ := applyTrait_frame js e
    exact ⟨i1.trans s1, i2.trans s2, i3.trans s3, i4.trans s4, i5.trans s5, i6.trans s6,
      i7.trans s7, i8.trans s8⟩

theorem parse_traits_name (root : Element) (js : JsonData) :
    (parse_traits root js).name = js.name := by
  unfold parse_traits
  cases findDescNamed root "特徴等" with
  | none => rfl
  | some traits_elem => exact (foldTrait_frame _ _).1

theorem parse_traits_abilities (root : Element) (js : JsonData) :
    (parse_traits root js).system.abilities = js.system.abilities := by
  unfold parse_traits
  cases findDescNamed root "特徴等" with
  | none => rfl
  | some traits_elem => exact (foldTrait_frame _ _).2.1

theorem parse_traits_attributes (root : Element) (js : JsonData) :
    (parse_traits root js).system.attributes = js.system.attributes := by
  unfold parse_traits
  cases findDescNamed root "特徴等" with
  | none => rfl
  | some traits_elem => exact (foldTrait_frame _ _).2.2.1

theorem parse_traits_alignment (root : Element) (js : JsonData) :
    (parse_traits root js).system.details.alignment = js.system.details.alignment := by
  unfold parse_traits
  cases findDescNamed root "特徴等" with
  | none => rfl
  | some traits_elem => exact (foldTrait_frame _ _).2.2.2.1

theorem parse_traits_race (root : Element) (js : JsonData) :
    (parse_traits root js).system.details.race = js.system.details.race := by
  unfold parse_traits
  cases findDescNamed root "特徴等" with
  | none => rfl
  | some traits_elem => exact (foldTrait_frame _ _).2.2.2.2.1

theorem parse_traits_biography (root : Element) (js : JsonData) :
    (parse_traits root js).system.details.biography = js.system.details.biography := by
  unfold parse_traits
  cases findDescNamed root "特徴等" with
  | none => rfl
  | some traits_elem => exact (foldTrait_frame _ _).2.2.2.2.2.1

theorem parse_traits_spells (root : Element) (js : JsonData) :
    (parse_traits root js).system.spells = js.system.spells := by
  unfold parse_traits
  cases findDescNamed root "特徴等" with
  | none => rfl
  | some traits_elem => exact (foldTrait_frame _ _).2.2.2.2.2.2.1

theorem parse_traits_items (root : Element) (js : JsonData) :
    (parse_traits root js).items = js.items := by
  unfold parse_traits
  cases findDescNamed root "特徴等" with
  | none => rfl
  | some traits_elem => exact (foldTrait_frame _ _).2.2.2.2.2.2.2

theorem foldAppendItem_frame (l : List Element) (js : JsonData) :
    ((l.foldl appendItem js)).name = js.name ∧
    ((l.foldl appendItem js)).system = js.system := by
  induction l generalizing js with
  | nil => exact ⟨rfl, rfl⟩
  | cons e t ih =>
    simp only [List.foldl_cons]
    obtain ⟨i1, i2⟩ := ih (appendItem js e)
    exact ⟨i1, i2⟩

theorem parse_items_name (root : Element) (js : JsonData) :
    (parse_items root js).name = js.name := by
  unfold parse_items
  cases findDescNamed root "アイテム" with
  | none => rfl
  | some items_elem => exact (foldAppendItem_frame _ _).1

theorem parse_items_system (root : Element) (js : JsonData) :
    (parse_items root js).system = js.system := by
  unfold parse_items
  cases findDescNamed root "アイテム" with
  | none => rfl
  | some items_elem => exact (foldAppendItem_frame _ _).2

theorem foldAppendItem_items (l : List Element) (js : JsonData) :
    ((l.foldl appendItem js)).items = js.items ++ l.map mkItem := by
  induction l generalizing js with
  | nil => simp
  | cons e t ih =>
    simp only [List.foldl_cons, List.map_cons]
    rw [ih (appendItem js e)]
    show (js.items ++ [mkItem e]) ++ t.map mkItem = _
    simp [List.append_assoc]

theorem parse_items_items (root : Element) (js : JsonData) :
    (parse_items root js).items =
      js.items ++
        (match findDescNamed root "アイテム" with
         | none => []
         | some items_elem =>
           ((items_elem.children.filter fun c => c.tag == "data")).map mkItem) := by
  unfold parse_items
  cases findDescNamed root "アイテム" with
  | none => simp
  | some items_elem => exact foldAppendItem_items _ _

theorem biographyStep_frame (root : Element) (js : JsonData) :
    (biographyStep root js).name = js.name ∧
    (biographyStep root js).system.abilities = js.system.abilities ∧
    (biographyStep root js).system.attributes = js.system.attributes ∧
    (biographyStep root js).system.details.alignment = js.system.details.alignment ∧
    (biographyStep root js).system.details.race = js.system.details.race ∧
    (biographyStep root js).system.spells = js.system.spells ∧
    (biographyStep root js).items = js.items := by
  unfold biographyStep
  split <;> exact ⟨rfl, rfl, rfl, rfl, rfl, rfl, rfl⟩

theorem biographyStep_name (root : Element) (js : JsonData) :
    (biographyStep root js).name = js.name := (biographyStep_frame root js).1

theorem biographyStep_abilities (root : Element) (js : JsonData) :
    (biographyStep root js).system.abilities = js.system.abilities :=
  (biographyStep_frame root js).2.1

theorem biographyStep_attributes (root : Element) (js : JsonData) :
    (biographyStep root js).system.attributes = js.system.attributes :=
  (biographyStep_frame root js).2.2.1

theorem biographyStep_alignment (root : Element) (js : JsonData) :
    (biographyStep root js).system.details.alignment = js.system.details.alignment :=
  (biographyStep_frame root js).2.2.2.1

theorem biographyStep_race (root : Element) (js : JsonData) :
    (biographyStep root js).system.details.race = js.system.details.race :=
  (biographyStep_frame root js).2.2.2.2.1

theorem biographyStep_spells (root : Element) (js : JsonData) :
    (biographyStep root js).system.spells = js.system.spells :=
  (biographyStep_frame root js).2.2.2.2.2.1

theorem biographyStep_items (root : Element) (js : JsonData) :
    (biographyStep root js).items = js.items := (biographyStep_frame root js).2.2.2.2.2.2

/-! Per-key preservation for the ability fold and per-level characterization
for the spell loop. -/

theorem setAbilityValue_str_ne (js : JsonData) (k : String) (v : Int) (h : k ≠ "str") :
    (setAbilityValue js k v).system.abilities.str = js.system.abilities.str := by
  unfold setAbilityValue
  split_ifs <;> simp_all

theorem applyAbility_str_ne (js : JsonData) (e : Element) (h : abilityKey e ≠ some "str") :
    (applyAbility js e).system.abilities.str = js.system.abilities.str := by
  unfold applyAbility
  cases hk : abilityKey e with
  | none => rfl
  | some k =>
    exact setAbilityValue_str_ne js k _ (fun hs => h (hk.trans (congrArg some hs)))

theorem foldAbility_str_of_none (l : List Element) (js : JsonData)
    (h : ∀ e ∈ l, abilityKey e ≠ some "str") :
    (l.foldl applyAbility js).system.abilities.str = js.system.abilities.str := by
  induction l generalizing js with
  | nil => rfl
  | cons e t ih =>
    simp only [List.foldl_cons]
    rw [ih (applyAbility js e) (fun x hx => h x (List.mem_cons_of_mem e hx)),
      applyAbility_str_ne js e (h e (List.mem_cons_self e t))]

theorem setAbilityValue_dex_ne (js : JsonData) (k : String) (v : Int) (h : k ≠ "dex") :
    (setAbilityValue js k v).system.abilities.dex = js.system.abilities.dex := by
  unfold setAbilityValue
  split_ifs <;> simp_all

theorem applyAbility_dex_ne (js : JsonData) (e : Element) (h : abilityKey e ≠ some "dex") :
    (applyAbility js e).system.abilities.dex = js.system.abilities.dex := by
  unfold applyAbility
  cases hk : abilityKey e with
  | none => rfl
  | some k =>
    exact setAbilityValue_dex_ne js k _ (fun hs => h (hk.trans (congrArg some hs)))

theorem foldAbility_dex_of_none (l : List Element) (js : JsonData)
    (h : ∀ e ∈ l, abilityKey e ≠ some "dex") :
    (l.foldl applyAbility js).system.abilities.dex = js.system.abilities.dex := by
  induction l generalizing js with
  | nil => rfl
  | cons e t ih =>
    simp only [List.foldl_cons]
    rw [ih (applyAbility js e) (fun x hx => h x (List.mem_cons_of_mem e hx)),
      applyAbility_dex_ne js e (h e (List.mem_cons_self e t))]

theorem setAbilityValue_con_ne (js : JsonData) (k : String) (v : Int) (h : k ≠ "con") :
    (setAbilityValue js k v).system.abilities.con = js.system.abilities.con := by
  unfold setAbilityValue
  split_ifs <;> simp_all

theorem applyAbility_con_ne (js : JsonData) (e : Element) (h : abilityKey e ≠ some "con") :
    (applyAbility js e).system.abilities.con = js.system.abilities.con := by
  unfold applyAbility
  cases hk : abilityKey e with
  | none => rfl
  | some k =>
    exact setAbilityValue_con_ne js k _ (fun hs => h (hk.trans (congrArg some hs)))

theorem foldAbility_con_of_none (l : List Element) (js : JsonData)
    (h : ∀ e ∈ l, abilityKey e ≠ some "con") :
    (l.foldl applyAbility js).system.abilities.con = js.system.abilities.con := by
  induction l generalizing js with
  | nil => rfl
  | cons e t ih =>
    simp only [List.foldl_cons]
    rw [ih (applyAbility js e) (fun x hx => h x (List.mem_cons_of_mem e hx)),
      applyAbility_con_ne js e (h e (List.mem_cons_self e t))]

theorem setAbilityValue_int_ne (js : JsonData) (k : String) (v : Int) (h : k ≠ "int") :
    (setAbilityValue js k v).system.abilities.int = js.system.abilities.int := by
  unfold setAbilityValue
  split_ifs <;> simp_all

theorem applyAbility_int_ne (js : JsonData) (e : Element) (h : abilityKey e ≠ some "int") :
    (applyAbility js e).system.abilities.int = js.system.abilities.int := by
  unfold applyAbility
  cases hk : abilityKey e with
  | none => rfl
  | some k =>
    exact setAbilityValue_int_ne js k _ (fun hs => h (hk.trans (congrArg some hs)))

theorem foldAbility_int_of_none (l : List Element) (js : JsonData)
    (h : ∀ e ∈ l, abilityKey e ≠ some "int") :
    (l.foldl applyAbility js).system.abilities.int = js.system.abilities.int := by
  induction l generalizing js with
  | nil => rfl
  | cons e t ih =>
    simp only [List.foldl_cons]
    rw [ih (applyAbility js e) (fun x hx => h x (List.mem_cons_of_mem e hx)),
      applyAbility_int_ne js e (h e (List.mem_cons_self e t))]

theorem setAbilityValue_wis_ne (js : JsonData) (k : String) (v : Int) (h : k ≠ "wis") :
    (setAbilityValue js k v).system.abilities.wis = js.system.abilities.wis := by
  unfold setAbilityValue
  split_ifs <;> simp_all

theorem applyAbility_wis_ne (js : JsonData) (e : Element) (h : abilityKey e ≠ some "wis") :
    (applyAbility js e).system.abilities.wis = js.system.abilities.wis := by
  unfold applyAbility
  cases hk : abilityKey e with
  | none => rfl
  | some k =>
    exact setAbilityValue_wis_ne js k _ (fun hs => h (hk.trans (congrArg some hs)))

theorem foldAbility_wis_of_none (l : List Element) (js : JsonData)
    (h : ∀ e ∈ l, abilityKey e ≠ some "wis") :
    (l.foldl applyAbility js).system.abilities.wis = js.system.abilities.wis := by
  induction l generalizing js with
  | nil => rfl
  | cons e t ih =>
    simp only [List.foldl_cons]
    rw [ih (applyAbility js e) (fun x hx => h x (List.mem_cons_of_mem e hx)),
      applyAbility_wis_ne js e (h e (List.mem_cons_self e t))]

theorem setAbilityValue_cha_ne (js : JsonData) (k : String) (v : Int) (h : k ≠ "cha") :
    (setAbilityValue js k v).system.abilities.cha = js.system.abilities.cha := by
  unfold setAbilityValue
  split_ifs <;> simp_all

theorem applyAbility_cha_ne (js : JsonData) (e : Element) (h : abilityKey e ≠ some "cha") :
    (applyAbility js e).system.abilities.cha = js.system.abilities.cha := by
  unfold applyAbility
  cases hk : abilityKey e with
  | none => rfl
  | some k =>
    exact setAbilityValue_cha_ne js k _ (fun hs => h (hk.trans (congrArg some hs)))

theorem foldAbility_cha_of_none (l : List Element) (js : JsonData)
    (h : ∀ e ∈ l, abilityKey e ≠ some "cha") :
    (l.foldl applyAbility js).system.abilities.cha = js.system.abilities.cha := by
  induction l generalizing js with
  | nil => rfl
  | cons e t ih =>
    simp only [List.foldl_cons]
    rw [ih (applyAbility js e) (fun x hx => h x (List.mem_cons_of_mem e hx)),
      applyAbility_cha_ne js e (h e (List.mem_cons_self e t))]

theorem setSpellSlot_spell1_ne (js : JsonData) (m : Nat) (slot : SpellSlot) (h : m ≠ 1) :
    (setSpellSlot js m slot).system.spells.spell1 = js.system.spells.spell1 := by
  unfold setSpellSlot
  split_ifs <;> simp_all

theorem applySpell_spell1_ne (root : Element) (js : JsonData) (m : Nat) (h : m ≠ 1) :
    (applySpellLevel root js m).system.spells.spell1 = js.system.spells.spell1 := by
  unfold applySpellLevel
  cases findDescChildNamed root ("LV" ++ toString m) "スロット" with
  | none => rfl
  | some slot_elem => exact setSpellSlot_spell1_ne js m _ h

theorem applySpell_spell1_self (root : Element) (js : JsonData) :
    (applySpellLevel root js 1).system.spells.spell1 =
      match findDescChildNamed root ("LV" ++ toString 1) "スロット" with
      | none => js.system.spells.spell1
      | some slot_elem =>
        ⟨get_int_value (some slot_elem) "currentValue", get_int_value (some slot_elem) "text"⟩ := by
  unfold applySpellLevel
  cases findDescChildNamed root ("LV" ++ toString 1) "スロット" <;> rfl

theorem spellsStep_spell1 (root : Element) (js : JsonData) :
    (spellsStep root js).system.spells.spell1 =
      match findDescChildNamed root ("LV" ++ toString 1) "スロット" with
      | none => js.system.spells.spell1
      | some slot_elem =>
        ⟨get_int_value (some slot_elem) "currentValue", get_int_value (some slot_elem) "text"⟩ := by
  unfold spellsStep
  simp only [List.foldl_cons, List.foldl_nil]
  rw [applySpell_spell1_ne root _ 9 (by decide),
    applySpell_spell1_ne root _ 8 (by decide),
    applySpell_spell1_ne root _ 7 (by decide),
    applySpell_spell1_ne root _ 6 (by decide),
    applySpell_spell1_ne root _ 5 (by decide),
    applySpell_spell1_ne root _ 4 (by decide),
    applySpell_spell1_ne root _ 3 (by decide),
    applySpell_spell1_ne root _ 2 (by decide),
    applySpell_spell1_self root _]

theorem setSpellSlot_spell2_ne (js : JsonData) (m : Nat) (slot : SpellSlot) (h : m ≠ 2) :
    (setSpellSlot js m slot).system.spells.spell2 = js.system.spells.spell2 := by
  unfold setSpellSlot
  split_ifs <;> simp_all

theorem applySpell_spell2_ne (root : Element) (js : JsonData) (m : Nat) (h : m ≠ 2) :
    (applySpellLevel root js m).system.spells.spell2 = js.system.spells.spell2 := by
  unfold applySpellLevel
  cases findDescChildNamed root ("LV" ++ toString m) "スロット" with
  | none => rfl
  | some slot_elem => exact setSpellSlot_spell2_ne js m _ h

theorem applySpell_spell2_self (root : Element) (js : JsonData) :
    (applySpellLevel root js 2).system.spells.spell2 =
      match findDescChildNamed root ("LV" ++ toString 2) "スロット" with
      | none => js.system.spells.spell2
      | some slot_elem =>
        ⟨get_int_value (some slot_elem) "currentValue", get_int_value (some slot_elem) "text"⟩ := by
  unfold applySpellLevel
  cases findDescChildNamed root ("LV" ++ toString 2) "スロット" <;> rfl

theorem spellsStep_spell2 (root : Element) (js : JsonData) :
    (spellsStep root js).system.spells.spell2 =
      match findDescChildNamed root ("LV" ++ toString 2) "スロット" with
      | none => js.system.spells.spell2
      | some slot_elem =>
        ⟨get_int_value (some slot_elem) "currentValue", get_int_value (some slot_elem) "text"⟩ := by
  unfold spellsStep
  simp only [List.foldl_cons, List.foldl_nil]
  rw [applySpell_spell2_ne root _ 9 (by decide),
    applySpell_spell2_ne root _ 8 (by decide),
    applySpell_spell2_ne root _ 7 (by decide),
    applySpell_spell2_ne root _ 6 (by decide),
    applySpell_spell2_ne root _ 5 (by decide),
    applySpell_spell2_ne root _ 4 (by decide),
    applySpell_spell2_ne root _ 3 (by decide),
    applySpell_spell2_self root _,
    applySpell_spell2_ne root _ 1 (by decide)]

theorem setSpellSlot_spell3_ne (js : JsonData) (m : Nat) (slot : SpellSlot) (h : m ≠ 3) :
    (setSpellSlot js m slot).system.spells.spell3 = js.system.spells.spell3 := by
  unfold setSpellSlot
  split_ifs <;> simp_all

theorem applySpell_spell3_ne (root : Element) (js : JsonData) (m : Nat) (h : m ≠ 3) :
    (applySpellLevel root js m).system.spells.spell3 = js.system.spells.spell3 := by
  unfold applySpellLevel
  cases findDescChildNamed root ("LV" ++ toString m) "スロット" with
  | none => rfl
  | some slot_elem => exact setSpellSlot_spell3_ne js m _ h

theorem applySpell_spell3_self (root : Element) (js : JsonData) :
    (applySpellLevel root js 3).system.spells.spell3 =
      match findDescChildNamed root ("LV" ++ toString 3) "スロット" with
      | none => js.system.spells.spell3
      | some slot_elem =>
        ⟨get_int_value (some slot_elem) "currentValue", get_int_value (some slot_elem) "text"⟩ := by
  unfold applySpellLevel
  cases findDescChildNamed root ("LV" ++ toString 3) "スロット" <;> rfl

theorem spellsStep_spell3 (root : Element) (js : JsonData) :
    (spellsStep root js).system.spells.spell3 =
      match findDescChildNamed root ("LV" ++ toString 3) "スロット" with
      | none => js.system.spells.spell3
      | some slot_elem =>
        ⟨get_int_value (some slot_elem) "currentValue", get_int_value (some slot_elem) "text"⟩ := by
  unfold spellsStep
  simp only [List.foldl_cons, List.foldl_nil]
  rw [applySpell_spell3_ne root _ 9 (by decide),
    applySpell_spell3_ne root _ 8 (by decide),
    applySpell_spell3_ne root _ 7 (by decide),
    applySpell_spell3_ne root _ 6 (by decide),
    applySpell_spell3_ne root _ 5 (by decide),
    applySpell_spell3_ne root _ 4 (by decide),
    applySpell_spell3_self root _,
    applySpell_spell3_ne root _ 2 (by decide),
    applySpell_spell3_ne root _ 1 (by decide)]

theorem setSpellSlot_spell4_ne (js : JsonData) (m : Nat) (slot : SpellSlot) (h : m ≠ 4) :
    (setSpellSlot js m slot).system.spells.spell4 = js.system.spells.spell4 := by
  unfold setSpellSlot
  split_ifs <;> simp_all

theorem applySpell_spell4_ne (root : Element) (js : JsonData) (m : Nat) (h : m ≠ 4) :
    (applySpellLevel root js m).system.spells.spell4 = js.system.spells.spell4 := by
  unfold applySpellLevel
  cases findDescChildNamed root ("LV" ++ toString m) "スロット" with
  | none => rfl
  | some slot_elem => exact setSpellSlot_spell4_ne js m _ h

theorem applySpell_spell4_self (root : Element) (js : JsonData) :
    (applySpellLevel root js 4).system.spells.spell4 =
      match findDescChildNamed root ("LV" ++ toString 4) "スロット" with
      | none => js.system.spells.spell4
      | some slot_elem =>
        ⟨get_int_value (some slot_elem) "currentValue", get_int_value (some slot_elem) "text"⟩ := by
  unfold applySpellLevel
  cases findDescChildNamed root ("LV" ++ toString 4) "スロット" <;> rfl

theorem spellsStep_spell4 (root : Element) (js : JsonData) :
    (spellsStep root js).system.spells.spell4 =
      match findDescChildNamed root ("LV" ++ toString 4) "スロット" with
      | none => js.system.spells.spell4
      | some slot_elem =>
        ⟨get_int_value (some slot_elem) "currentValue", get_int_value (some slot_elem) "text"⟩ := by
  unfold spellsStep
  simp only [List.foldl_cons, List.foldl_nil]
  rw [applySpell_spell4_ne root _ 9 (by decide),
    applySpell_spell4_ne root _ 8 (by decide),
    applySpell_spell4_ne root _ 7 (by decide),
    applySpell_spell4_ne root _ 6 (by decide),
    applySpell_spell4_ne root _ 5 (by decide),
    applySpell_spell4_self root _,
    applySpell_spell4_ne root _ 3 (by decide),
    applySpell_spell4_ne root _ 2 (by decide),
    applySpell_spell4_ne root _ 1 (by decide)]

theorem setSpellSlot_spell5_ne (js : JsonData) (m : Nat) (slot : SpellSlot) (h : m ≠ 5) :
    (setSpellSlot js m slot).system.spells.spell5 = js.system.spells.spell5 := by
  unfold setSpellSlot
  split_ifs <;> simp_all

theorem applySpell_spell5_ne (root : Element) (js : JsonData) (m : Nat) (h : m ≠ 5) :
    (applySpellLevel root js m).system.spells.spell5 = js.system.spells.spell5 := by
  unfold applySpellLevel
  cases findDescChildNamed root ("LV" ++ toString m) "スロット" with
  | none => rfl
  | some slot_elem => exact setSpellSlot_spell5_ne js m _ h

theorem applySpell_spell5_self (root : Element) (js : JsonData) :
    (applySpellLevel root js 5).system.spells.spell5 =
      match findDescChildNamed root ("LV" ++ toString 5) "スロット" with
      | none => js.system.spells.spell5
      | some slot_elem =>
        ⟨get_int_value (some slot_elem) "currentValue", get_int_value (some slot_elem) "text"⟩ := by
  unfold applySpellLevel
  cases findDescChildNamed root ("LV" ++ toString 5) "スロット" <;> rfl

theorem spellsStep_spell5 (root : Element) (js : JsonData) :
    (spellsStep root js).system.spells.spell5 =
      match findDescChildNamed root ("LV" ++ toString 5) "スロット" with
      | none => js.system.spells.spell5
      | some slot_elem =>
        ⟨get_int_value (some slot_elem) "currentValue", get_int_value (some slot_elem) "text"⟩ := by
  unfold spellsStep
  simp only [List.foldl_cons, List.foldl_nil]
  rw [applySpell_spell5_ne root _ 9 (by decide),
    applySpell_spell5_ne root _ 8 (by decide),
    applySpell_spell5_ne root _ 7 (by decide),
    applySpell_spell5_ne root _ 6 (by decide),
    applySpell_spell5_self root _,
    applySpell_spell5_ne root _ 4 (by decide),
    applySpell_spell5_ne root _ 3 (by decide),
    applySpell_spell5_ne root _ 2 (by decide),
    applySpell_spell5_ne root _ 1 (by decide)]

theorem setSpellSlot_spell6_ne (js : JsonData) (m : Nat) (slot : SpellSlot) (h : m ≠ 6) :
    (setSpellSlot js m slot).system.spells.spell6 = js.system.spells.spell6 := by
  unfold setSpellSlot
  split_ifs <;> simp_all

theorem applySpell_spell6_ne (root : Element) (js : JsonData) (m : Nat) (h : m ≠ 6) :
    (applySpellLevel root js m).system.spells.spell6 = js.system.spells.spell6 := by
  unfold applySpellLevel
  cases findDescChildNamed root ("LV" ++ toString m) "スロット" with
  | none => rfl
  | some slot_elem => exact setSpellSlot_spell6_ne js m _ h

theorem applySpell_spell6_self (root : Element) (js : JsonData) :
    (applySpellLevel root js 6).system.spells.spell6 =
      match findDescChildNamed root ("LV" ++ toString 6) "スロット" with
      | none => js.system.spells.spell6
      | some slot_elem =>
        ⟨get_int_value (some slot_elem) "currentValue", get_int_value (some slot_elem) "text"⟩ := by
  unfold applySpellLevel
  cases findDescChildNamed root ("LV" ++ toString 6) "スロット" <;> rfl

theorem spellsStep_spell6 (root : Element) (js : JsonData) :
    (spellsStep root js).system.spells.spell6 =
      match findDescChildNamed root ("LV" ++ toString 6) "スロット" with
      | none => js.system.spells.spell6
      | some slot_elem =>
        ⟨get_int_value (some slot_elem) "currentValue", get_int_value (some slot_elem) "text"⟩ := by
  unfold spellsStep
  simp only [List.foldl_cons, List.foldl_nil]
  rw [applySpell_spell6_ne root _ 9 (by decide),
    applySpell_spell6_ne root _ 8 (by decide),
    applySpell_spell6_ne root _ 7 (by decide),
    applySpell_spell6_self root _,
    applySpell_spell6_ne root _ 5 (by decide),
    applySpell_spell6_ne root _ 4 (by decide),
    applySpell_spell6_ne root _ 3 (by decide),
    applySpell_spell6_ne root _ 2 (by decide),
    applySpell_spell6_ne root _ 1 (by decide)]

theorem setSpellSlot_spell7_ne (js : JsonData) (m : Nat) (slot : SpellSlot) (h : m ≠ 7) :
    (setSpellSlot js m slot).system.spells.spell7 = js.system.spells.spell7 := by
  unfold setSpellSlot
  split_ifs <;> simp_all

theorem applySpell_spell7_ne (root : Element) (js : JsonData) (m : Nat) (h : m ≠ 7) :
    (applySpellLevel root js m).system.spells.spell7 = js.system.spells.spell7 := by
  unfold applySpellLevel
  cases findDescChildNamed root ("LV" ++ toString m) "スロット" with
  | none => rfl
  | some slot_elem => exact setSpellSlot_spell7_ne js m _ h

theorem applySpell_spell7_self (root : Element) (js : JsonData) :
    (applySpellLevel root js 7).system.spells.spell7 =
      match findDescChildNamed root ("LV" ++ toString 7) "スロット" with
      | none => js.system.spells.spell7
      | some slot_elem =>
        ⟨get_int_value (some slot_elem) "currentValue", get_int_value (some slot_elem) "text"⟩ := by
  unfold applySpellLevel
  cases findDescChildNamed root ("LV" ++ toString 7) "スロット" <;> rfl

theorem spellsStep_spell7 (root : Element) (js : JsonData) :
    (spellsStep root js).system.spells.spell7 =
      match findDescChildNamed root ("LV" ++ toString 7) "スロット" with
      | none => js.system.spells.spell7
      | some slot_elem =>
        ⟨get_int_value (some slot_elem) "currentValue", get_int_value (some slot_elem) "text"⟩ := by
  unfold spellsStep
  simp only [List.foldl_cons, List.foldl_nil]
  rw [applySpell_spell7_ne root _ 9 (by decide),
    applySpell_spell7_ne root _ 8 (by decide),
    applySpell_spell7_self root _,
    applySpell_spell7_ne root _ 6 (by decide),
    applySpell_spell7_ne root _ 5 (by decide),
    applySpell_spell7_ne root _ 4 (by decide),
    applySpell_spell7_ne root _ 3 (by decide),
    applySpell_spell7_ne root _ 2 (by decide),
    applySpell_spell7_ne root _ 1 (by decide)]

theorem setSpellSlot_spell8_ne (js : JsonData) (m : Nat) (slot : SpellSlot) (h : m ≠ 8) :
    (setSpellSlot js m slot).system.spells.spell8 = js.system.spells.spell8 := by
  unfold setSpellSlot
  split_ifs <;> simp_all

theorem applySpell_spell8_ne (root : Element) (js : JsonData) (m : Nat) (h : m ≠ 8) :
    (applySpellLevel root js m).system.spells.spell8 = js.system.spells.spell8 := by
  unfold applySpellLevel
  cases findDescChildNamed root ("LV" ++ toString m) "スロット" with
  | none => rfl
  | some slot_elem => exact setSpellSlot_spell8_ne js m _ h

theorem applySpell_spell8_self (root : Element) (js : JsonData) :
    (applySpellLevel root js 8).system.spells.spell8 =
      match findDescChildNamed root ("LV" ++ toString 8) "スロット" with
      | none => js.system.spells.spell8
      | some slot_elem =>
        ⟨get_int_value (some slot_elem) "currentValue", get_int_value (some slot_elem) "text"⟩ := by
  unfold applySpellLevel
  cases findDescChildNamed root ("LV" ++ toString 8) "スロット" <;> rfl

theorem spellsStep_spell8 (root : Element) (js : JsonData) :
    (spellsStep root js).system.spells.spell8 =
      match findDescChildNamed root ("LV" ++ toString 8) "スロット" with
      | none => js.system.spells.spell8
      | some slot_elem =>
        ⟨get_int_value (some slot_elem) "currentValue", get_int_value (some slot_elem) "text"⟩ := by
  unfold spellsStep
  simp only [List.foldl_cons, List.foldl_nil]
  rw [applySpell_spell8_ne root _ 9 (by decide),
    applySpell_spell8_self root _,
    applySpell_spell8_ne root _ 7 (by decide),
    applySpell_spell8_ne root _ 6 (by decide),
    applySpell_spell8_ne root _ 5 (by decide),
    applySpell_spell8_ne root _ 4 (by decide),
    applySpell_spell8_ne root _ 3 (by decide),
    applySpell_spell8_ne root _ 2 (by decide),
    applySpell_spell8_ne root _ 1 (by decide)]

theorem setSpellSlot_spell9_ne (js : JsonData) (m : Nat) (slot : SpellSlot) (h : m ≠ 9) :
    (setSpellSlot js m slot).system.spells.spell9 = js.system.spells.spell9 := by
  unfold setSpellSlot
  split_ifs <;> simp_all

theorem applySpell_spell9_ne (root : Element) (js : JsonData) (m : Nat) (h : m ≠ 9) :
    (applySpellLevel root js m).system.spells.spell9 = js.system.spells.spell9 := by
  unfold applySpellLevel
  cases findDescChildNamed root ("LV" ++ toString m) "スロット" with
  | none => rfl
  | some slot_elem => exact setSpellSlot_spell9_ne js m _ h

theorem applySpell_spell9_self (root : Element) (js : JsonData) :
    (applySpellLevel root js 9).system.spells.spell9 =
      match findDescChildNamed root ("LV" ++ toString 9) "スロット" with
      | none => js.system.spells.spell9
      | some slot_elem =>
        ⟨get_int_value (some slot_elem) "currentValue", get_int_value (some slot_elem) "text"⟩ := by
  unfold applySpellLevel
  cases findDescChildNamed root ("LV" ++ toString 9) "スロット" <;> rfl

theorem spellsStep_spell9 (root : Element) (js : JsonData) :
    (spellsStep root js).system.spells.spell9 =
      match findDescChildNamed root ("LV" ++ toString 9) "スロット" with
      | none => js.system.spells.spell9
      | some slot_elem =>
        ⟨get_int_value (some slot_elem) "currentValue", get_int_value (some slot_elem) "text"⟩ := by
  unfold spellsStep
  simp only [List.foldl_cons, List.foldl_nil]
  rw [applySpell_spell9_self root _,
    applySpell_spell9_ne root _ 8 (by decide),
    applySpell_spell9_ne root _ 7 (by decide),
    applySpell_spell9_ne root _ 6 (by decide),
    applySpell_spell9_ne root _ 5 (by decide),
    applySpell_spell9_ne root _ 4 (by decide),
    applySpell_spell9_ne root _ 3 (by decide),
    applySpell_spell9_ne root _ 2 (by decide),
    applySpell_spell9_ne root _ 1 (by decide)]

/-! Characterization of each output field of convertRoot. -/

theorem convertRoot_name (root : Element) :
    (convertRoot root).name = get_text (findDescChildNamed root "character" "name") := by
  unfold convertRoot
  rw [biographyStep_name, parse_items_name, parse_traits_name, spellsStep_name,
    raceStep_name, alignmentStep_name, hdStep_name, hpStep_name, parse_abilities_name]
  rfl

theorem convertRoot_abilities (root : Element) :
    (convertRoot root).system.abilities =
      (parse_abilities root (nameStep root initJson)).system.abilities := by
  unfold convertRoot
  rw [biographyStep_abilities, parse_items_system, parse_traits_abilities, spellsStep_abilities,
    raceStep_abilities, alignmentStep_abilities, hdStep_abilities, hpStep_abilities]

theorem convertRoot_hp (root : Element) :
    (convertRoot root).system.attributes.hp =
      match findDescChildNamed root "行動データ" "ヒット・ポイント" with
      | none => (⟨0, 0⟩ : HP)
      | some hp_elem =>
        ⟨get_int_value (some hp_elem) "currentValue", get_int_value (some hp_elem) "text"⟩ := by
  unfold convertRoot
  rw [biographyStep_attributes, parse_items_system, parse_traits_attributes, spellsStep_attributes,
    raceStep_attributes, alignmentStep_attributes, hdStep_hp]
  unfold hpStep
  cases findDescChildNamed root "行動データ" "ヒット・ポイント" with
  | none =>
    rw [parse_abilities_attributes]
    rfl
  | some hp_elem => rfl

theorem convertRoot_hd (root : Element) :
    (convertRoot root).system.attributes.hd.value =
      get_text (findDescNamed root "ヒット・ダイス") := by
  unfold convertRoot
  rw [biographyStep_attributes, parse_items_system, parse_traits_attributes, spellsStep_attributes,
    raceStep_attributes, alignmentStep_attributes]
  rfl

theorem convertRoot_alignment (root : Element) :
    (convertRoot root).system.details.alignment = get_text (findDescNamed root "属性") := by
  unfold convertRoot
  rw [biographyStep_alignment, parse_items_system, parse_traits_alignment, spellsStep_details,
    raceStep_alignment]
  rfl

theorem convertRoot_race (root : Element) :
    (convertRoot root).system.details.race = get_text (findDescNamed root "種族") := by
  unfold convertRoot
  rw [biographyStep_race, parse_items_system, parse_traits_race, spellsStep_details]
  rfl

theorem convertRoot_biography (root : Element) :
    (convertRoot root).system.details.biography.value =
      String.intercalate "\n" (unconvertedData root) := by
  unfold convertRoot biographyStep
  split
  next h =>
    rw [h, parse_items_system, parse_traits_biography, spellsStep_details, raceStep_biography,
      alignmentStep_biography, hdStep_details, hpStep_details, parse_abilities_details]
    rfl
  next h => rfl

theorem convertRoot_items (root : Element) :
    (convertRoot root).items =
      match findDescNamed root "アイテム" with
      | none => []
      | some items_elem =>
        ((items_elem.children.filter fun c => c.tag == "data")).map mkItem := by
  unfold convertRoot
  rw [biographyStep_items, parse_items_items, parse_traits_items, spellsStep_items,
    raceStep_items, alignmentStep_items, hdStep_items, hpStep_items, parse_abilities_items]
  rfl

theorem convertRoot_spell1 (root : Element) :
    (convertRoot root).system.spells.spell1 =
      match findDescChildNamed root ("LV" ++ toString 1) "スロット" with
      | none => (⟨0, 0⟩ : SpellSlot)
      | some slot_elem =>
        ⟨get_int_value (some slot_elem) "currentValue", get_int_value (some slot_elem) "text"⟩ := by
  unfold convertRoot
  rw [biographyStep_spells, parse_items_system, parse_traits_spells, spellsStep_spell1]
  cases findDescChildNamed root ("LV" ++ toString 1) "スロット" with
  | none =>
    rw [raceStep_spells, alignmentStep_spells, hdStep_spells, hpStep_spells,
      parse_abilities_spells]
    rfl
  | some slot_elem => rfl

theorem convertRoot_spell2 (root : Element) :
    (convertRoot root).system.spells.spell2 =
      match findDescChildNamed root ("LV" ++ toString 2) "スロット" with
      | none => (⟨0, 0⟩ : SpellSlot)
      | some slot_elem =>
        ⟨get_int_value (some slot_elem) "currentValue", get_int_value (some slot_elem) "text"⟩ := by
  unfold convertRoot
  rw [biographyStep_spells, parse_items_system, parse_traits_spells, spellsStep_spell2]
  cases findDescChildNamed root ("LV" ++ toString 2) "スロット" with
  | none =>
    rw [raceStep_spells, alignmentStep_spells, hdStep_spells, hpStep_spells,
      parse_abilities_spells]
    rfl
  | some slot_elem => rfl

theorem convertRoot_spell3 (root : Element) :
    (convertRoot root).system.spells.spell3 =
      match findDescChildNamed root ("LV" ++ toString 3) "スロット" with
      | none => (⟨0, 0⟩ : SpellSlot)
      | some slot_elem =>
        ⟨get_int_value (some slot_elem) "currentValue", get_int_value (some slot_elem) "text"⟩ := by
  unfold convertRoot
  rw [biographyStep_spells, parse_items_system, parse_traits_spells, spellsStep_spell3]
  cases findDescChildNamed root ("LV" ++ toString 3) "スロット" with
  | none =>
    rw [raceStep_spells, alignmentStep_spells, hdStep_spells, hpStep_spells,
      parse_abilities_spells]
    rfl
  | some slot_elem => rfl

theorem convertRoot_spell4 (root : Element) :
    (convertRoot root).system.spells.spell4 =
      match findDescChildNamed root ("LV" ++ toString 4) "スロット" with
      | none => (⟨0, 0⟩ : SpellSlot)
      | some slot_elem =>
        ⟨get_int_value (some slot_elem) "currentValue", get_int_value (some slot_elem) "text"⟩ := by
  unfold convertRoot
  rw [biographyStep_spells, parse_items_system, parse_traits_spells, spellsStep_spell4]
  cases findDescChildNamed root ("LV" ++ toString 4) "スロット" with
  | none =>
    rw [raceStep_spells, alignmentStep_spells, hdStep_spells, hpStep_spells,
      parse_abilities_spells]
    rfl
  | some slot_elem => rfl

theorem convertRoot_spell5 (root : Element) :
    (convertRoot root).system.spells.spell5 =
      match findDescChildNamed root ("LV" ++ toString 5) "スロット" with
      | none => (⟨0, 0⟩ : SpellSlot)
      | some slot_elem =>
        ⟨get_int_value (some slot_elem) "currentValue", get_int_value (some slot_elem) "text"⟩ := by
  unfold convertRoot
  rw [biographyStep_spells, parse_items_system, parse_traits_spells, spellsStep_spell5]
  cases findDescChildNamed root ("LV" ++ toString 5) "スロット" with
  | none =>
    rw [raceStep_spells, alignmentStep_spells, hdStep_spells, hpStep_spells,
      parse_abilities_spells]
    rfl
  | some slot_elem => rfl

theorem convertRoot_spell6 (root : Element) :
    (convertRoot root).system.spells.spell6 =
      match findDescChildNamed root ("LV" ++ toString 6) "スロット" with
      | none => (⟨0, 0⟩ : SpellSlot)
      | some slot_elem =>
        ⟨get_int_value (some slot_elem) "currentValue", get_int_value (some slot_elem) "text"⟩ := by
  unfold convertRoot
  rw [biographyStep_spells, parse_items_system, parse_traits_spells, spellsStep_spell6]
  cases findDescChildNamed root ("LV" ++ toString 6) "スロット" with
  | none =>
    rw [raceStep_spells, alignmentStep_spells, hdStep_spells, hpStep_spells,
      parse_abilities_spells]
    rfl
  | some slot_elem => rfl

theorem convertRoot_spell7 (root : Element) :
    (convertRoot root).system.spells.spell7 =
      match findDescChildNamed root ("LV" ++ toString 7) "スロット" with
      | none => (⟨0, 0⟩ : SpellSlot)
      | some slot_elem =>
        ⟨get_int_value (some slot_elem) "currentValue", get_int_value (some slot_elem) "text"⟩ := by
  unfold convertRoot
  rw [biographyStep_spells, parse_items_system, parse_traits_spells, spellsStep_spell7]
  cases findDescChildNamed root ("LV" ++ toString 7) "スロット" with
  | none =>
    rw [raceStep_spells, alignmentStep_spells, hdStep_spells, hpStep_spells,
      parse_abilities_spells]
    rfl
  | some slot_elem => rfl

theorem convertRoot_spell8 (root : Element) :
    (convertRoot root).system.spells.spell8 =
      match findDescChildNamed root ("LV" ++ toString 8) "スロット" with
      | none => (⟨0, 0⟩ : SpellSlot)
      | some slot_elem =>
        ⟨get_int_value (some slot_elem) "currentValue", get_int_value (some slot_elem) "text"⟩ := by
  unfold convertRoot
  rw [biographyStep_spells, parse_items_system, parse_traits_spells, spellsStep_spell8]
  cases findDescChildNamed root ("LV" ++ toString 8) "スロット" with
  | none =>
    rw [raceStep_spells, alignmentStep_spells, hdStep_spells, hpStep_spells,
      parse_abilities_spells]
    rfl
  | some slot_elem => rfl

theorem convertRoot_spell9 (root : Element) :
    (convertRoot root).system.spells.spell9 =
      match findDescChildNamed root ("LV" ++ toString 9) "スロット" with
      | none => (⟨0, 0⟩ : SpellSlot)
      | some slot_elem =>
        ⟨get_int_value (some slot_elem) "currentValue", get_int_value (some slot_elem) "text"⟩ := by
  unfold convertRoot
  rw [biographyStep_spells, parse_items_system, parse_traits_spells, spellsStep_spell9]
  cases findDescChildNamed root ("LV" ++ toString 9) "スロット" with
  | none =>
    rw [raceStep_spells, alignmentStep_spells, hdStep_spells, hpStep_spells,
      parse_abilities_spells]
    rfl
  | some slot_elem => rfl

/-! The claims. -/

/-- Claim C1: for every well-formed (successfully parsed) input the
conversion returns a destination record (it never raises on missing
optional nodes), and every one of the six ability keys and nine spell-level
keys carries its zero default whenever the source lacks the corresponding
node. -/
theorem convert_defaults_present (root : Element) :
    xml_to_fvtt_json (Except.ok root) = some (convertRoot root) ∧
    ((∀ e ∈ findallDescChildData root "能力値", abilityKey e ≠ some "str") →
      (convertRoot root).system.abilities.str.value = 0) ∧
    ((∀ e ∈ findallDescChildData root "能力値", abilityKey e ≠ some "dex") →
      (convertRoot root).system.abilities.dex.value = 0) ∧
    ((∀ e ∈ findallDescChildData root "能力値", abilityKey e ≠ some "con") →
      (convertRoot root).system.abilities.con.value = 0) ∧
    ((∀ e ∈ findallDescChildData root "能力値", abilityKey e ≠ some "int") →
      (convertRoot root).system.abilities.int.value = 0) ∧
    ((∀ e ∈ findallDescChildData root "能力値", abilityKey e ≠ some "wis") →
      (convertRoot root).system.abilities.wis.value = 0) ∧
    ((∀ e ∈ findallDescChildData root "能力値", abilityKey e ≠ some "cha") →
      (convertRoot root).system.abilities.cha.value = 0) ∧
    (findDescChildNamed root ("LV" ++ toString 1) "スロット" = none →
      (convertRoot root).system.spells.spell1 = ⟨0, 0⟩) ∧
    (findDescChildNamed root ("LV" ++ toString 2) "スロット" = none →
      (convertRoot root).system.spells.spell2 = ⟨0, 0⟩) ∧
    (findDescChildNamed root ("LV" ++ toString 3) "スロット" = none →
      (convertRoot root).system.spells.spell3 = ⟨0, 0⟩) ∧
    (findDescChildNamed root ("LV" ++ toString 4) "スロット" = none →
      (convertRoot root).system.spells.spell4 = ⟨0, 0⟩) ∧
    (findDescChildNamed root ("LV" ++ toString 5) "スロット" = none →
      (convertRoot root).system.spells.spell5 = ⟨0, 0⟩) ∧
    (findDescChildNamed root ("LV" ++ toString 6) "スロット" = none →
      (convertRoot root).system.spells.spell6 = ⟨0, 0⟩) ∧
    (findDescChildNamed root ("LV" ++ toString 7) "スロット" = none →
      (convertRoot root).system.spells.spell7 = ⟨0, 0⟩) ∧
    (findDescChildNamed root ("LV" ++ toString 8) "スロット" = none →
      (convertRoot root).system.spells.spell8 = ⟨0, 0⟩) ∧
    (findDescChildNamed root ("LV" ++ toString 9) "スロット" = none →
      (convertRoot root).system.spells.spell9 = ⟨0, 0⟩) := by
  refine ⟨rfl, ?_, ?_, ?_, ?_, ?_, ?_, ?_, ?_, ?_, ?_, ?_, ?_, ?_, ?_, ?_⟩
  · intro h
    rw [convertRoot_abilities]
    unfold parse_abilities
    rw [foldAbility_str_of_none _ _ h]
    rfl
  · intro h
    rw [convertRoot_abilities]
    unfold parse_abilities
    rw [foldAbility_dex_of_none _ _ h]
    rfl
  · intro h
    rw [convertRoot_abilities]
    unfold parse_abilities
    rw [foldAbility_con_of_none _ _ h]
    rfl
  · intro h
    rw [convertRoot_abilities]
    unfold parse_abilities
    rw [foldAbility_int_of_none _ _ h]
    rfl
  · intro h
    rw [convertRoot_abilities]
    unfold parse_abilities
    rw [foldAbility_wis_of_none _ _ h]
    rfl
  · intro h
    rw [convertRoot_abilities]
    unfold parse_abilities
    rw [foldAbility_cha_of_none _ _ h]
    rfl
  · intro h
    rw [convertRoot_spell1, h]
  · intro h
    rw [convertRoot_spell2, h]
  · intro h
    rw [convertRoot_spell3, h]
  · intro h
    rw [convertRoot_spell4, h]
  · intro h
    rw [convertRoot_spell5, h]
  · intro h
    rw [convertRoot_spell6, h]
  · intro h
    rw [convertRoot_spell7, h]
  · intro h
    rw [convertRoot_spell8, h]
  · intro h
    rw [convertRoot_spell9, h]

/-- Witness for convert_defaults_present at a document with no matching
nodes at all. -/
theorem convert_defaults_present_witness :
    (convertRoot sampleEmptyRoot).system.abilities.str.value = 0 ∧
    (convertRoot sampleEmptyRoot).system.spells.spell9 = ⟨0, 0⟩ := by
  obtain ⟨-, hstr, -, -, -, -, -, -, -, -, -, -, -, -, -, h9⟩ :=
    convert_defaults_present sampleEmptyRoot
  exact ⟨hstr fun e he => absurd he (List.not_mem_nil e), h9 rfl⟩

/-- Claim C2: an input whose markup is not well-formed makes the parse fail,
and the conversion then yields no destination record at all. -/
theorem malformed_input_yields_no_record (err : XMLSyntaxError) :
    xml_to_fvtt_json (Except.error err) = none := rfl

/-- Claim C3: the biography field equals the newline-join of one
"name: text" line per named, text-bearing data descendant of the detail
node whose name is outside the skip set, in document order; nodes with no
name or no text contribute nothing. -/
theorem biography_joins_unconverted_lines (root : Element) :
    (convertRoot root).system.details.biography.value =
      String.intercalate "\n"
        ((match findDescNamed root "detail" with
          | none => ([] : List Element)
          | some detail_elem =>
            (elemDesc detail_elem).filter fun e => e.tag == "data").filterMap
          fun (data_elem : Element) =>
            match data_elem.get "name" with
            | none => none
            | some nm =>
              if nm = "" ∨ nm ∈ skip_names then none
              else
                match data_elem.text with
                | none => none
                | some t => if t = "" then none else some (nm ++ ": " ++ pyStrip t)) := by
  rw [convertRoot_biography]
  unfold unconvertedData
  cases findDescNamed root "detail" with
  | none => rfl
  | some detail_elem => rfl

/-- Unfolding of get_int_value on the text sentinel. -/
theorem get_int_value_text_eq (e : Element) :
    get_int_value (some e) "text" =
      match e.text with
      | none => (0 : Int)
      | some v =>
        if v = "" then (0 : Int)
        else
          (match pyIntOpt (pyStrip v) with
           | some n => n
           | none => (0 : Int)) := rfl

/-- Unfolding of get_int_value on a real attribute name. -/
theorem get_int_value_attr_eq (e : Element) (a : String) (ha : a ≠ "text") :
    get_int_value (some e) a =
      match e.get a with
      | none => (0 : Int)
      | some v =>
        if v = "" then (0 : Int)
        else
          (match pyIntOpt (pyStrip v) with
           | some n => n
           | none => (0 : Int)) := by
  simp only [get_int_value]
  rw [if_pos ha]

/-- Claim C4: the integer helper never raises: for every element and every
attribute (or the text content), a missing element, a missing value, or an
unparsable value yields 0 and a parsable value yields its integer after
trimming; the concrete nodes with text "15", "abc", no text, and with
currentValue "7" and "abc" behave accordingly. -/
theorem get_int_value_lenient :
    (∀ a : String, get_int_value none a = 0) ∧
    (∀ e : Element, e.text = none → get_int_value (some e) "text" = 0) ∧
    (∀ (e : Element) (a : String), a ≠ "text" → e.get a = none →
      get_int_value (some e) a = 0) ∧
    (∀ (e : Element) (v : String), e.text = some v → pyIntOpt (pyStrip v) = none →
      get_int_value (some e) "text" = 0) ∧
    (∀ (e : Element) (v : String) (n : Int), e.text = some v →
      pyIntOpt (pyStrip v) = some n → get_int_value (some e) "text" = n) ∧
    (∀ (e : Element) (a v : String), a ≠ "text" → e.get a = some v →
      pyIntOpt (pyStrip v) = none → get_int_value (some e) a = 0) ∧
    (∀ (e : Element) (a v : String) (n : Int), a ≠ "text" → e.get a = some v →
      pyIntOpt (pyStrip v) = some n → get_int_value (some e) a = n) ∧
    get_int_value (some abilityNode15) "text" = 15 ∧
    get_int_value (some abcNode) "text" = 0 ∧
    get_int_value (some noTextNode) "text" = 0 ∧
    get_int_value (some currentValueNode7) "currentValue" = 7 ∧
    get_int_value (some currentValueNodeAbc) "currentValue" = 0 := by
  refine ⟨fun a => rfl, ?_, ?_, ?_, ?_, ?_, ?_, rfl, rfl, rfl, rfl, rfl⟩
  · intro e he
    simp only [get_int_value_text_eq, he]
  · intro e a ha hget
    simp only [get_int_value_attr_eq e a ha, hget]
  · intro e v hv hn
    simp only [get_int_value_text_eq, hv]
    rcases eq_or_ne v "" with h | h
    · subst h
      rfl
    · rw [if_neg h]
      simp only [hn]
  · intro e v n hv hn
    simp only [get_int_value_text_eq, hv]
    rcases eq_or_ne v "" with h | h
    · subst h
      rw [show pyIntOpt (pyStrip "") = none from rfl] at hn
      exact Option.noConfusion hn
    · rw [if_neg h]
      simp only [hn]
  · intro e a v ha hget hn
    simp only [get_int_value_attr_eq e a ha, hget]
    rcases eq_or_ne v "" with h | h
    · subst h
      rfl
    · rw [if_neg h]
      simp only [hn]
  · intro e a v n ha hget hn
    simp only [get_int_value_attr_eq e a ha, hget]
    rcases eq_or_ne v "" with h | h
    · subst h
      rw [show pyIntOpt (pyStrip "") = none from rfl] at hn
      exact Option.noConfusion hn
    · rw [if_neg h]
      simp only [hn]

/-- Witness for get_int_value_lenient at the concrete nodes, on the text
side and on a real attribute. -/
theorem get_int_value_lenient_witness :
    get_int_value none "text" = 0 ∧
    get_int_value (some noTextNode) "text" = 0 ∧
    get_int_value (some abcNode) "text" = 0 ∧
    get_int_value (some abilityNode15) "text" = 15 ∧
    get_int_value (some currentValueNodeAbc) "currentValue" = 0 ∧
    get_int_value (some currentValueNode7) "currentValue" = 7 := by
  obtain ⟨h1, h2, -, h4, h5, h6, h7, -, -, -, -, -⟩ := get_int_value_lenient
  exact ⟨h1 "text", h2 noTextNode rfl, h4 abcNode "abc" rfl rfl,
    h5 abilityNode15 "15" 15 rfl rfl,
    h6 currentValueNodeAbc "currentValue" "abc" (by decide) rfl rfl,
    h7 currentValueNode7 "currentValue" "7" 7 (by decide) rfl rfl⟩

/-- Claim C5: hit points take the current value from the currentValue
attribute and the maximum from the node text, both defaulting to 0, and the
concrete node with currentValue "7" and text "10" yields value 7, max 10. -/
theorem hp_mapping_spec :
    (∀ root : Element,
      (convertRoot root).system.attributes.hp =
        match findDescChildNamed root "行動データ" "ヒット・ポイント" with
        | none => (⟨0, 0⟩ : HP)
        | some hp_elem =>
          ⟨get_int_value (some hp_elem) "currentValue",
           get_int_value (some hp_elem) "text"⟩) ∧
    (convertRoot sampleHpRoot).system.attributes.hp = ⟨7, 10⟩ :=
  ⟨convertRoot_hp, rfl⟩

/-- Claim C6: every ability node is mapped by stripping the bracket
decoration from its label and translating it through the fixed six-entry
table: the key is exactly the table lookup of the stripped label, a
recognized key receives the node value, each of the six bracketed labels
resolves to its canonical key (a document carrying all six gets all six
values), and a node whose stripped label is outside the table is ignored
without error. -/
theorem ability_label_mapping_spec :
    (∀ (js : JsonData) (e : Element), abilityKey e = none → applyAbility js e = js) ∧
    (∀ (e : Element) (nm : String), e.get "name" = some nm →
      abilityKey e = ability_mapping.lookup (normalizeAbilityName nm)) ∧
    (∀ (js : JsonData) (e : Element) (k : String), abilityKey e = some k →
      applyAbility js e = setAbilityValue js k (get_int_value (some e) "text")) ∧
    (∀ e : Element, e.get "name" = some "【筋力】" → abilityKey e = some "str") ∧
    (∀ e : Element, e.get "name" = some "【敏捷力】" → abilityKey e = some "dex") ∧
    (∀ e : Element, e.get "name" = some "【耐久力】" → abilityKey e = some "con") ∧
    (∀ e : Element, e.get "name" = some "【知力】" → abilityKey e = some "int") ∧
    (∀ e : Element, e.get "name" = some "【判断力】" → abilityKey e = some "wis") ∧
    (∀ e : Element, e.get "name" = some "【魅力】" → abilityKey e = some "cha") ∧
    (convertRoot sampleAllAbilitiesRoot).system.abilities =
      ⟨⟨15⟩, ⟨14⟩, ⟨13⟩, ⟨12⟩, ⟨11⟩, ⟨10⟩⟩ ∧
    (convertRoot sampleAbilityRoot).system.abilities.str.value = 15 ∧
    convertRoot sampleUnknownOnlyRoot = convertRoot sampleNoAbilityRoot := by
  refine ⟨?_, ?_, ?_, ?_, ?_, ?_, ?_, ?_, ?_, rfl, rfl, rfl⟩
  · intro js e h
    unfold applyAbility
    rw [h]
  · intro e nm h
    unfold abilityKey
    rw [h]
    rfl
  · intro js e k h
    unfold applyAbility
    rw [h]
  · intro e h
    unfold abilityKey
    rw [h]
    rfl
  · intro e h
    unfold abilityKey
    rw [h]
    rfl
  · intro e h
    unfold abilityKey
    rw [h]
    rfl
  · intro e h
    unfold abilityKey
    rw [h]
    rfl
  · intro e h
    unfold abilityKey
    rw [h]
    rfl
  · intro e h
    unfold abilityKey
    rw [h]
    rfl

/-- Witness for ability_label_mapping_spec: the unrecognized node is
ignored, the bracketed strength and charisma labels resolve through the
table, the general table clause fires on the dexterity label, and the
recognized strength node performs the table write. -/
theorem ability_label_mapping_spec_witness :
    applyAbility initJson (el "data" [("name", "謎")] (some "5") []) = initJson ∧
    abilityKey abilityNode15 = some "str" ∧
    abilityKey (el "data" [("name", "【魅力】")] (some "10") []) = some "cha" ∧
    abilityKey (el "data" [("name", "【敏捷力】")] (some "14") []) =
      ability_mapping.lookup (normalizeAbilityName "【敏捷力】") ∧
    applyAbility initJson abilityNode15 =
      setAbilityValue initJson "str" (get_int_value (some abilityNode15) "text") := by
  obtain ⟨h1, h2, h3, hstr, -, -, -, -, hcha, -, -, -⟩ := ability_label_mapping_spec
  exact ⟨h1 initJson _ rfl, hstr abilityNode15 rfl, hcha _ rfl, h2 _ "【敏捷力】" rfl,
    h3 initJson abilityNode15 "str" (hstr abilityNode15 rfl)⟩

/-- Claim C7: for every level 1 through 9, the spell-slot entry is filled
from the slot node inside the container named "LV" followed by the level
number, current value from its attribute and maximum from its text, and
stays at 0, 0 whenever that container or slot node is missing. -/
theorem spell_slot_mapping_spec (root : Element) :
    ((convertRoot root).system.spells.spell1 =
      match findDescChildNamed root ("LV" ++ toString 1) "スロット" with
      | none => (⟨0, 0⟩ : SpellSlot)
      | some slot_elem =>
        ⟨get_int_value (some slot_elem) "currentValue",
         get_int_value (some slot_elem) "text"⟩) ∧
    ((convertRoot root).system.spells.spell2 =
      match findDescChildNamed root ("LV" ++ toString 2) "スロット" with
      | none => (⟨0, 0⟩ : SpellSlot)
      | some slot_elem =>
        ⟨get_int_value (some slot_elem) "currentValue",
         get_int_value (some slot_elem) "text"⟩) ∧
    ((convertRoot root).system.spells.spell3 =
      match findDescChildNamed root ("LV" ++ toString 3) "スロット" with
      | none => (⟨0, 0⟩ : SpellSlot)
      | some slot_elem =>
        ⟨get_int_value (some slot_elem) "currentValue",
         get_int_value (some slot_elem) "text"⟩) ∧
    ((convertRoot root).system.spells.spell4 =
      match findDescChildNamed root ("LV" ++ toString 4) "スロット" with
      | none => (⟨0, 0⟩ : SpellSlot)
      | some slot_elem =>
        ⟨get_int_value (some slot_elem) "currentValue",
         get_int_value (some slot_elem) "text"⟩) ∧
    ((convertRoot root).system.spells.spell5 =
      match findDescChildNamed root ("LV" ++ toString 5) "スロット" with
      | none => (⟨0, 0⟩ : SpellSlot)
      | some slot_elem =>
        ⟨get_int_value (some slot_elem) "currentValue",
         get_int_value (some slot_elem) "text"⟩) ∧
    ((convertRoot root).system.spells.spell6 =
      match findDescChildNamed root ("LV" ++ toString 6) "スロット" with
      | none => (⟨0, 0⟩ : SpellSlot)
      | some slot_elem =>
        ⟨get_int_value (some slot_elem) "currentValue",
         get_int_value (some slot_elem) "text"⟩) ∧
    ((convertRoot root).system.spells.spell7 =
      match findDescChildNamed root ("LV" ++ toString 7) "スロット" with
      | none => (⟨0, 0⟩ : SpellSlot)
      | some slot_elem =>
        ⟨get_int_value (some slot_elem) "currentValue",
         get_int_value (some slot_elem) "text"⟩) ∧
    ((convertRoot root).system.spells.spell8 =
      match findDescChildNamed root ("LV" ++ toString 8) "スロット" with
      | none => (⟨0, 0⟩ : SpellSlot)
      | some slot_elem =>
        ⟨get_int_value (some slot_elem) "currentValue",
         get_int_value (some slot_elem) "text"⟩) ∧
    ((convertRoot root).system.spells.spell9 =
      match findDescChildNamed root ("LV" ++ toString 9) "スロット" with
      | none => (⟨0, 0⟩ : SpellSlot)
      | some slot_elem =>
        ⟨get_int_value (some slot_elem) "currentValue",
         get_int_value (some slot_elem) "text"⟩) :=
  ⟨convertRoot_spell1 root, convertRoot_spell2 root, convertRoot_spell3 root,
   convertRoot_spell4 root, convertRoot_spell5 root, convertRoot_spell6 root,
   convertRoot_spell7 root, convertRoot_spell8 root, convertRoot_spell9 root⟩

/-- Unfolding of get_text on a present element. -/
theorem get_text_some_eq (e : Element) :
    get_text (some e) =
      match e.text with
      | none => ""
      | some t => if t = "" then "" else pyStrip t := rfl

/-- Claim C8: every text field goes through the text helper: the node text
trimmed of surrounding whitespace, and a missing element or
empty/whitespace-only text gives the empty string; the character name, hit
dice, alignment and race fields are exactly such extractions, and an absent
character-name path yields the empty name. -/
theorem get_text_policy_spec :
    get_text none = "" ∧
    (∀ e : Element, e.text = none → get_text (some e) = "") ∧
    (∀ (e : Element) (t : String), e.text = some t → get_text (some e) = pyStrip t) ∧
    (∀ (e : Element) (t : String), e.text = some t → pyStrip t = "" →
      get_text (some e) = "") ∧
    (∀ root : Element,
      (convertRoot root).name = get_text (findDescChildNamed root "character" "name")) ∧
    (∀ root : Element,
      (convertRoot root).system.attributes.hd.value =
        get_text (findDescNamed root "ヒット・ダイス")) ∧
    (∀ root : Element,
      (convertRoot root).system.details.alignment = get_text (findDescNamed root "属性")) ∧
    (∀ root : Element,
      (convertRoot root).system.details.race = get_text (findDescNamed root "種族")) ∧
    (∀ root : Element, findDescChildNamed root "character" "name" = none →
      (convertRoot root).name = "") := by
  refine ⟨rfl, ?_, ?_, ?_, convertRoot_name, convertRoot_hd, convertRoot_alignment,
    convertRoot_race, ?_⟩
  · intro e he
    simp only [get_text_some_eq, he]
  · intro e t ht
    simp only [get_text_some_eq, ht]
    rcases eq_or_ne t "" with h | h
    · subst h
      rfl
    · rw [if_neg h]
  · intro e t ht hs
    simp only [get_text_some_eq, ht]
    rcases eq_or_ne t "" with h | h
    · subst h
      rfl
    · rw [if_neg h]
      exact hs
  · intro root h
    rw [convertRoot_name, h]
    rfl

/-- Witness for get_text_policy_spec at nodes with no text and blank text
and at the document with no name path. -/
theorem get_text_policy_spec_witness :
    get_text (some noTextNode) = "" ∧
    get_text (some blankTextNode) = "" ∧
    (convertRoot sampleEmptyRoot).name = "" := by
  obtain ⟨-, h2, -, h4, -, -, -, -, h9⟩ := get_text_policy_spec
  exact ⟨h2 noTextNode rfl, h4 blankTextNode "   " rfl rfl, h9 sampleEmptyRoot rfl⟩

/-- Claim C9: the items list has exactly one record per child of the
inventory container, in document order, carrying the child name attribute,
the fixed type tag item, and the trimmed child text as description; the
concrete container with two named children yields the two expected
records. -/
theorem items_mapping_spec :
    (∀ (root : Element) (items_elem : Element),
      findDescNamed root "アイテム" = some items_elem →
      (∀ c ∈ items_elem.children, c.tag = "data") →
      (convertRoot root).items = items_elem.children.map mkItem) ∧
    (∀ root : Element, findDescNamed root "アイテム" = none →
      (convertRoot root).items = []) ∧
    (∀ item_elem : Element,
      (mkItem item_elem).name = item_elem.get "name" ∧
      (mkItem item_elem).type = "item" ∧
      (mkItem item_elem).system.description.value = get_text (some item_elem)) ∧
    (convertRoot sampleItemsRoot).items =
      [⟨some "剣", "item", ⟨⟨"鋭い剣"⟩⟩⟩, ⟨some "盾", "item", ⟨⟨"固い盾"⟩⟩⟩] := by
  refine ⟨?_, ?_, fun item_elem => ⟨rfl, rfl, rfl⟩, rfl⟩
  · intro root items_elem hfind hall
    rw [convertRoot_items, hfind]
    show (items_elem.children.filter fun c => c.tag == "data").map mkItem = _
    congr 1
    exact List.filter_eq_self.mpr fun a ha => by simp [hall a ha]
  · intro root h
    rw [convertRoot_items, h]

/-- Witness for items_mapping_spec at the two-child container and the empty
document. -/
theorem items_mapping_spec_witness :
    (convertRoot sampleItemsRoot).items =
      (el "data" [("name", "アイテム")] none
        [el "data" [("name", "剣")] (some "鋭い剣") [],
         el "data" [("name", "盾")] (some "固い盾") []]).children.map mkItem ∧
    (convertRoot sampleEmptyRoot).items = [] := by
  obtain ⟨h1, h2, -, -⟩ := items_mapping_spec
  exact ⟨h1 sampleItemsRoot _ rfl (by decide), h2 sampleEmptyRoot rfl⟩

/-- Claim C10: an inventory child without a name attribute still produces
an item record, but its name field is None (null) rather than the empty
string that every other text field of the record defaults to. -/
theorem nameless_item_null_name :
    (∀ item_elem : Element, item_elem.get "name" = none → (mkItem item_elem).name = none) ∧
    (∀ (root : Element) (items_elem : Element) (e : Element),
      findDescNamed root "アイテム" = some items_elem →
      e ∈ items_elem.children → e.tag = "data" →
      mkItem e ∈ (convertRoot root).items) ∧
    (convertRoot sampleNamelessItemRoot).items = [⟨none, "item", ⟨⟨"ポーション"⟩⟩⟩] ∧
    (convertRoot sampleNamelessItemRoot).name = "" := by
  refine ⟨?_, ?_, rfl, rfl⟩
  · intro item_elem h
    exact h
  · intro root items_elem e hfind hmem htag
    rw [convertRoot_items, hfind]
    show mkItem e ∈ (items_elem.children.filter fun c => c.tag == "data").map mkItem
    exact List.mem_map_of_mem mkItem (List.mem_filter.mpr ⟨hmem, by simp [htag]⟩)

/-- Witness for nameless_item_null_name at the concrete nameless child. -/
theorem nameless_item_null_name_witness :
    (mkItem (el "data" [] (some "ポーション") [])).name = none ∧
    mkItem (el "data" [] (some "ポーション") []) ∈ (convertRoot sampleNamelessItemRoot).items := by
  obtain ⟨h1, h2, -, -⟩ := nameless_item_null_name
  exact ⟨h1 _ rfl,
    h2 sampleNamelessItemRoot _ _ rfl (List.mem_singleton.mpr rfl) rfl⟩

/-- Witness for malformed_input_yields_no_record at a concrete parse
error. -/
theorem malformed_input_yields_no_record_witness :
    xml_to_fvtt_json (Except.error ⟨"unclosed tag"⟩) = none :=
  malformed_input_yields_no_record ⟨"unclosed tag"⟩
